import Mathlib

/-!
Verification development for the marketing-ai-backend repository.

The definitions below are a shallow embedding of the intent-routing and
tool-orchestration engine of the repository (the `chat` route of
`src/routes/chat.ts`, the tool registry of `src/services/toolIntegration.ts`,
and the campaign leaderboard of `src/services/metaApi.ts`).

Modelling conventions, stated once here:
  * JavaScript runtime values are modelled by `JVal` (numbers as exact
    rationals; `NaN` is modelled as the absence of a number, `Option.none`,
    where a coercion can produce it).
  * JavaScript regular-expression `test` calls are modelled by a small
    existential matcher (`reTest`) over token lists that transcribe each
    regex of the source: literal pieces, alternations, `\s+`, `\s*`, `.*`
    and `\b`.  Each predicate definition names the source regex it embeds.
  * `Intl.NumberFormat` digit grouping is not reproduced: `formatCurrency`
    renders a number as `currency ++ " " ++ digits` (this is also the
    source's own `catch` fallback).  No claim below depends on the rendered
    digits of a number.
  * Network collaborators (tool handlers, LLM providers) are inputs of the
    model (`ChatEnv`): a tool run either returns a value or throws, an LLM
    provider either answers or is unavailable, exactly the boundary the
    code observes.
  * The retrieval pre-filter weighs tokens by `1 / Math.sqrt(df)`.  These
    weights are irrational, so the accumulated candidate score is modelled
    in exact real arithmetic — the value the source's float64
    accumulation computes — and the definitions that depend on it are
    `noncomputable`; everything else in the file evaluates.
-/

/-! ## JavaScript value model -/

/-- A JavaScript runtime value as the chat route manipulates them. -/
inductive JVal where
  | null
  | undefined
  | bool (b : Bool)
  | num (q : Rat)
  | str (s : String)
  | obj (fields : List (String × JVal))
  | arr (elems : List JVal)
  deriving Repr

/-- JavaScript truthiness of a value (`NaN` cannot arise for `num` since
numbers are exact rationals here). -/
def JVal.truthy : JVal → Bool
  | .null => false
  | .undefined => false
  | .bool b => b
  | .num q => q != 0
  | .str s => s != ""
  | .obj _ => true
  | .arr _ => true

/-- `typeof v === "object"` (true for objects and for `null`). -/
def JVal.isObjType : JVal → Bool
  | .obj _ => true
  | .arr _ => true
  | .null => true
  | _ => false

/-- Is the value an actual object (spreadable, property-bearing)? -/
def JVal.isObj : JVal → Bool
  | .obj _ => true
  | _ => false

/-- `Array.isArray`. -/
def JVal.isArr : JVal → Bool
  | .arr _ => true
  | _ => false

/-- The element list of an array value, else `[]` (the
`Array.isArray(x) ? x : []` idiom). -/
def JVal.arrElems : JVal → List JVal
  | .arr l => l
  | _ => []

/-- Property access `v.k`: `undefined` when absent or when `v` is not an
object.  (The chat route only dereferences values it has truthiness- or
type-checked, so the `null`/`undefined` throw of JavaScript is never hit.) -/
def jget : JVal → String → JVal
  | .obj fields, k =>
    match fields.find? (fun e => e.1 = k) with
    | some e => e.2
    | none => .undefined
  | _, _ => .undefined

/-- `x ?? d`: nullish coalescing. -/
def jcoalesce (v : JVal) (d : JVal) : JVal :=
  match v with
  | .null => d
  | .undefined => d
  | _ => v

/-- `Number(x)` where `none` stands for `NaN`.  Numeric string parsing is
not modelled (no claim feeds a numeric string where the code coerces): a
nonempty string coerces to `NaN` here, the empty string to `0`. -/
def toNumber : JVal → Option Rat
  | .num q => some q
  | .null => some 0
  | .undefined => none
  | .bool b => some (if b then 1 else 0)
  | .str s => if s = "" then some 0 else none
  | .obj _ => none
  | .arr _ => none

/-- `Number(v.k ?? d)` with a rational default, the pervasive field-read
idiom of the formatters. -/
def numField (v : JVal) (k : String) (d : Rat) : Option Rat :=
  toNumber (jcoalesce (jget v k) (.num d))

/-- `Number(x ?? NaN)` on an already optional-chained value. -/
def numOrNaN (v : JVal) : Option Rat :=
  match v with
  | .null => none
  | .undefined => none
  | _ => toNumber v

/-- `String(x)` coercion (arrays are not rendered element-wise here; no
claim displays an array). -/
def jStr : JVal → String
  | .str s => s
  | .num q =>
    if q.den = 1 then toString q.num
    else toString q.num ++ "/" ++ toString q.den
  | .bool b => if b then "true" else "false"
  | .null => "null"
  | .undefined => "undefined"
  | .obj _ => "[object Object]"
  | .arr _ => ""

/-- `String(x || d)`: the `|| default` idiom on a displayed field. -/
def jStrOr (v : JVal) (d : String) : String :=
  if v.truthy then jStr v else d

/-! ## Regex model

A token list transcribes one JavaScript regex; `reTest` is `regex.test`,
an existential search over every start position with backtracking for
`.*`, `\s+` and `\s*`. -/

/-- A JavaScript word character, `[A-Za-z0-9_]`. -/
def wordChar (c : Char) : Bool := c.isAlpha || c.isDigit || c = '_'

/-- Word-character test through an optional character (string edge = no). -/
def wordOpt : Option Char → Bool
  | some c => wordChar c
  | none => false

/-- One token of a transcribed regex. -/
inductive RTok where
  | lit (w : List Char)
  | alts (ws : List (List Char))
  | ws1
  | ws0
  | gap
  | wb
  deriving Repr

/-- The previous character after consuming `w` (for later `\b` tests). -/
def lastOr (prev : Option Char) (w : List Char) : Option Char :=
  match w.getLast? with
  | some c => some c
  | none => prev

/-- The size of a pattern, used to compute a sufficient call-depth fuel
for the matcher (each recursive call strictly decreases a lexicographic
measure on (remaining text, remaining pattern, remaining alternatives), so
`(|s| + 1) * (2|ps| + 2) * (size + 2)` calls always suffice; the matcher
recurses on an explicit fuel so that it evaluates inside the kernel). -/
def patternSize (ps : List RTok) : Nat :=
  ps.foldl (fun acc t => acc + (match t with
    | .alts ws => ws.length + 1
    | _ => 1)) 0

mutual

/-- Can the token list match starting exactly here?  `prev` is the character
before this position (for `\b`). -/
def reHere : Nat → Option Char → List RTok → List Char → Bool
  | 0, _, _, _ => false
  | fuel + 1, prev, ps, s =>
    match ps with
    | [] => true
    | .lit w :: ps2 =>
      w.isPrefixOf s && reHere fuel (lastOr prev w) ps2 (s.drop w.length)
    | .alts ws :: ps2 => reAlts fuel prev ws ps2 s
    | .ws1 :: ps2 =>
      match s with
      | [] => false
      | c :: rest => c.isWhitespace && reWs fuel c ps2 rest
    | .ws0 :: ps2 => reWs0 fuel prev ps2 s
    | .gap :: ps2 => reSearch fuel prev ps2 s
    | .wb :: ps2 => (wordOpt prev != wordOpt s.head?) && reHere fuel prev ps2 s

/-- Try each alternative of an alternation group at this position. -/
def reAlts : Nat → Option Char → List (List Char) → List RTok →
    List Char → Bool
  | 0, _, _, _, _ => false
  | fuel + 1, prev, ws, ps, s =>
    match ws with
    | [] => false
    | w :: rest =>
      (w.isPrefixOf s && reHere fuel (lastOr prev w) ps (s.drop w.length)) ||
        reAlts fuel prev rest ps s

/-- Continue a `\s+` match: one whitespace `c` consumed, extend or stop. -/
def reWs : Nat → Char → List RTok → List Char → Bool
  | 0, _, _, _ => false
  | fuel + 1, c, ps, rest =>
    reHere fuel (some c) ps rest ||
      (match rest with
       | [] => false
       | c2 :: r2 => c2.isWhitespace && reWs fuel c2 ps r2)

/-- A `\s*` match: zero or more whitespace characters, backtracking. -/
def reWs0 : Nat → Option Char → List RTok → List Char → Bool
  | 0, _, _, _ => false
  | fuel + 1, prev, ps, s =>
    reHere fuel prev ps s ||
      (match s with
       | [] => false
       | c :: r => c.isWhitespace && reWs0 fuel (some c) ps r)

/-- A `.*` match (the source regexes run on normalized, newline-free text,
so `.` excluding newlines does not matter): try the rest of the pattern at
every later position. -/
def reSearch : Nat → Option Char → List RTok → List Char → Bool
  | 0, _, _, _ => false
  | fuel + 1, prev, ps, s =>
    reHere fuel prev ps s ||
      (match s with
       | [] => false
       | c :: r => reSearch fuel (some c) ps r)

end

/-- `regex.test s`: a match may start at any position (the fuel bound is
always sufficient, see `patternSize`). -/
def reTest (ps : List RTok) (s : String) : Bool :=
  reSearch ((s.data.length + 1) * ((2 * ps.length + 2) * (patternSize ps + 2)))
    none ps s.data

/-- Shorthand: a literal token. -/
def kw (s : String) : RTok := .lit s.data

/-- Shorthand: an alternation token. -/
def kwAlt (l : List String) : RTok := .alts (l.map String.data)

/-- Is `sub` a contiguous sublist of `l`? -/
def listInfix (sub : List Char) : List Char → Bool
  | [] => sub.isPrefixOf []
  | c :: rest => sub.isPrefixOf (c :: rest) || listInfix sub rest

/-- Substring containment, `String.prototype.includes`. -/
def substr (m sub : String) : Bool := listInfix sub.data m.data

/-! ## Normalizer (`normalizeMessage`, chat route)

The source lowercases, applies fourteen word-bounded rewrite rules in
order (`.replace(/\b...\b/g, ...)`), collapses whitespace runs to one
space, and trims.  The rewrite engine below scans left to right, replaces
a match and continues after it, exactly the semantics of a global
`String.replace`; regexes with an optional part (`ystr?day`, `monhth?`,
`ga ?4`) are transcribed as alternative lists, longest first (greedy). -/

/-- The first alternative matching at this position with both `\b`
boundaries satisfied (all rule alternatives start and end in a word
character, so `\b` means a non-word neighbour). -/
def findRuleAlt (alts2 : List (List Char)) (prev : Option Char)
    (s : List Char) : Option (List Char) :=
  alts2.find? fun w =>
    !w.isEmpty && w.isPrefixOf s &&
      (wordOpt prev != wordOpt w.head?) &&
      (wordOpt w.getLast? != wordOpt ((s.drop w.length).head?))

/-- Global word-bounded replace: every (non-overlapping, leftmost) match of
one of `alts2` becomes `rhs`; the replacement text is not rescanned.  The
fuel (at least the text length, each step consumes a character or more)
makes the recursion structural so it evaluates inside the kernel. -/
def replaceRuleGo (alts2 : List (List Char)) (rhs : List Char) :
    Nat → Option Char → List Char → List Char
  | 0, _, s => s
  | _ + 1, _, [] => []
  | fuel + 1, prev, c :: rest =>
    match findRuleAlt alts2 prev (c :: rest) with
    | some w => rhs ++ replaceRuleGo alts2 rhs fuel (lastOr prev w)
        (rest.drop (w.length - 1))
    | none => c :: replaceRuleGo alts2 rhs fuel (some c) rest

/-- `replaceRuleGo` at its sufficient fuel. -/
def replaceRule (alts2 : List (List Char)) (rhs : List Char)
    (prev : Option Char) (s : List Char) : List Char :=
  replaceRuleGo alts2 rhs s.length prev s

/-- The fourteen rewrite rules of `normalizeMessage`, in source order. -/
def normalizeRules : List (List (List Char) × List Char) :=
  [ (["add".data], "ad".data),
    (["adds".data], "ads".data),
    (["spen".data], "spend".data),
    (["spnd".data], "spend".data),
    (["montly".data], "monthly".data),
    (["monhth".data, "monht".data], "month".data),
    (["mnth".data], "month".data),
    (["tdy".data], "today".data),
    (["ystrday".data, "ystday".data], "yesterday".data),
    (["yday".data], "yesterday".data),
    (["yest".data], "yesterday".data),
    (["ga 4".data, "ga4".data], "ga4".data),
    (["instgram".data], "instagram".data),
    (["insta gram".data], "instagram".data) ]

/-- Collapse every whitespace run to a single space (`\s+` to `" "`); the
flag records whether the current run already emitted its space. -/
def collapseWsGo : Bool → List Char → List Char
  | _, [] => []
  | inRun, c :: rest =>
    if c.isWhitespace then
      if inRun then collapseWsGo true rest
      else ' ' :: collapseWsGo true rest
    else c :: collapseWsGo false rest

/-- Collapse every whitespace run to a single space. -/
def collapseWs (l : List Char) : List Char := collapseWsGo false l

/-- Trim whitespace from both ends. -/
def trimChars (l : List Char) : List Char :=
  ((l.dropWhile Char.isWhitespace).reverse.dropWhile Char.isWhitespace).reverse

/-- `String.prototype.trim` (ASCII whitespace suffices for the texts the
route trims). -/
def strTrim (s : String) : String := String.mk (trimChars s.data)

/-- Lowercase a string character-wise (`toLowerCase`; ASCII case folding,
which covers every pattern the rewrite table and the classifiers use). -/
def lowerStr (s : String) : String := String.mk (s.data.map Char.toLower)

/-- `normalizeMessage`: lowercase, rewrite the misspelling table in order,
collapse whitespace, trim. -/
def normalizeMessage (s : String) : String :=
  let l0 := s.data.map Char.toLower
  let l1 := normalizeRules.foldl (fun acc r => replaceRule r.1 r.2 none acc) l0
  String.mk (trimChars (collapseWs l1))

/-! ## Intent predicates (chat route)

Each definition transcribes one regex test of the source; the source
function it embeds is named in its comment. -/

/-- `isComparisonIntent`: the whole-word comparison keyword set over the
normalized message. -/
def isComparisonIntent (message : String) : Bool :=
  reTest [.wb, kwAlt ["compare", "comparison", "vs", "versus", "difference",
    "diff", "trend", "against"], .wb] (normalizeMessage message)

/-- `isPoorPerformanceIntent`. -/
def isPoorPerformanceIntent (message : String) : Bool :=
  let m := normalizeMessage message
  reTest [kwAlt ["poor", "worst", "bad", "weak", "underperform", "low"]] m &&
    reTest [kwAlt ["perform", "performance", "campaign", "ad", "ads"]] m

/-- `isLeadQualityActionsIntent`:
`/top\s*3.*(action|actions).*(lead quality)|improve.*lead quality/`. -/
def isLeadQualityActionsIntent (message : String) : Bool :=
  let m := normalizeMessage message
  reTest [kw "top", .ws0, kw "3", .gap, kwAlt ["action", "actions"], .gap,
    kw "lead quality"] m ||
  reTest [kw "improve", .gap, kw "lead quality"] m

/-- `isReduceCplIntent`:
`/(reduce|lower|improve).*(cpl)|(cpl).*(reduce|lower|improve)/`. -/
def isReduceCplIntent (message : String) : Bool :=
  let m := normalizeMessage message
  reTest [kwAlt ["reduce", "lower", "improve"], .gap, kw "cpl"] m ||
  reTest [kw "cpl", .gap, kwAlt ["reduce", "lower", "improve"]] m

/-- `isBudgetWasteIntent`:
`/(where|which).*(budget).*(wast|leak)|(budget).*(wast|leak).*(today)/`. -/
def isBudgetWasteIntent (message : String) : Bool :=
  let m := normalizeMessage message
  reTest [kwAlt ["where", "which"], .gap, kw "budget", .gap,
    kwAlt ["wast", "leak"]] m ||
  reTest [kw "budget", .gap, kwAlt ["wast", "leak"], .gap, kw "today"] m

/-- `hasSpendIntent`: `/\b(spend|spen|spent)\b/` on the lowercased message. -/
def hasSpendIntent (message : String) : Bool :=
  reTest [.wb, kwAlt ["spend", "spen", "spent"], .wb] (lowerStr message)

/-- `hasMetaAdsIntent`: `/\b(meta|facebook|ad|ads|add)\b/` lowercased. -/
def hasMetaAdsIntent (message : String) : Bool :=
  reTest [.wb, kwAlt ["meta", "facebook", "ad", "ads", "add"], .wb]
    (lowerStr message)

/-- `isMarketingIntent`: the broad marketing keyword union (substring
alternation, no word boundaries). -/
def isMarketingIntent (message : String) : Bool :=
  reTest [kwAlt ["meta", "ga4", "instagram", "insta", "reel", "reels",
    "campaign", "ad", "ads", "audience", "creative", "copy", "spend", "cpl",
    "cpc", "cpa", "roas", "ctr", "landing", "conversion", "funnel", "lead",
    "budget", "remarketing", "retarget"]] (normalizeMessage message)

/-- `detectBestCampaignPeriod`: maximum for `ever`/`all time`/… as whole
words, else `this_month` for month words, else `today`. -/
def detectBestCampaignPeriod (message : String) : String :=
  let m := normalizeMessage message
  if reTest [.wb, kwAlt ["ever", "all time", "lifetime", "maximum",
      "overall"], .wb] m then "maximum"
  else if reTest [.wb, kwAlt ["month", "monthly", "this month"], .wb] m then
    "this_month"
  else "today"

/-- The chat route's best-campaign branch test:
`/(best)\s+(campaign|ad)/ || /(campaign|ad).*(best)/` on the normalized
message. -/
def bestCampaignBranch (m : String) : Bool :=
  reTest [kw "best", .ws1, kwAlt ["campaign", "ad"]] m ||
  reTest [kwAlt ["campaign", "ad"], .gap, kw "best"] m

/-- The chat route's Instagram best-reel branch test. -/
def bestReelBranch (m : String) : Bool :=
  reTest [kw "best", .ws1, kwAlt ["instagram", "insta", "reel", "reels"]] m ||
  reTest [kwAlt ["instagram", "insta", "reel", "reels"], .gap, kw "best"] m

/-- The chat route's GA4 weekly-active-users priority branch test. -/
def ga4WeeklyBranch (m : String) : Bool :=
  reTest [kw "ga4", .gap, kwAlt ["active user", "active users"], .gap,
    kwAlt ["last 7 days", "7 days", "last week", "this week"]] m ||
  reTest [kwAlt ["last 7 days", "7 days", "last week", "this week"], .gap,
    kw "ga4", .gap, kwAlt ["active user", "active users"]] m

/-- The monthly-spend priority branch test: `/(month|monthly)/`. -/
def monthWordTest (m : String) : Bool :=
  reTest [kwAlt ["month", "monthly"]] m

/-! ## Keyword-to-tool mappings -/

/-- `mapMessageToTool`: the deterministic keyword-pair table of the chat
route (the ultimate tool fallback). -/
def mapMessageToTool (message : String) : Option String :=
  let m := normalizeMessage message
  if substr m "best campaign" || (substr m "campaign" && substr m "best") then
    some "get_meta_best_campaign"
  else if isPoorPerformanceIntent m then some "get_meta_best_campaign"
  else if substr m "leads" && substr m "today" then some "get_meta_leads_today"
  else if substr m "leads" && (substr m "last 30 days" || substr m "30 days"
      || substr m "last month") then some "get_meta_leads_last_30d"
  else if (substr m "ad" || substr m "ads") &&
      (substr m "running" || substr m "active") && substr m "today" then
    some "get_meta_ads_running_today"
  else if hasSpendIntent m && (substr m "month" || substr m "monthly"
      || substr m "this month") then some "get_meta_spend_month"
  else if hasSpendIntent m && substr m "today" then some "get_meta_spend_today"
  else if hasSpendIntent m && hasMetaAdsIntent m then
    some "get_meta_spend_today"
  else if (substr m "active users" || substr m "active user") &&
      substr m "yesterday" then some "get_ga4_active_users_yesterday"
  else if (substr m "active users" || substr m "active user") &&
      (substr m "last 7 days" || substr m "7 days" || substr m "last week"
        || substr m "this week") then some "get_ga4_active_users_last_7_days"
  else if (substr m "active users" || substr m "active user") &&
      (substr m "today" || substr m "now") then
    some "get_ga4_active_users_today"
  else if substr m "instagram" || substr m "insta" || substr m "reel"
      || substr m "reels" then
    if reTest [kwAlt ["follower", "followers", "follow", "follows",
        "follw"]] m then some "get_instagram_account_overview"
    else if reTest [kwAlt ["best", "top", "better", "perform"]] m then
      some "get_instagram_best_reel"
    else if substr m "best" then some "get_instagram_best_reel"
    else if substr m "month" || substr m "monthly" || substr m "this month"
      then some "get_instagram_reels_month"
    else some "get_instagram_reels_today"
  else none

/-- `inferToolFromText`: the simplified tool inference used by the
retrieval matcher (query first, then matched prompts). -/
def inferToolFromText (text : String) : Option String :=
  let m := normalizeMessage text
  if substr m "best campaign" || (substr m "campaign" && substr m "best") then
    some "get_meta_best_campaign"
  else if isPoorPerformanceIntent m then some "get_meta_best_campaign"
  else if substr m "meta" && substr m "leads" && substr m "today" then
    some "get_meta_leads_today"
  else if substr m "meta" && substr m "leads" && (substr m "last 30 days"
      || substr m "30 days" || substr m "last month") then
    some "get_meta_leads_last_30d"
  else if (substr m "ad" || substr m "ads") &&
      (substr m "running" || substr m "active") && substr m "today" then
    some "get_meta_ads_running_today"
  else if substr m "spend" && (substr m "month" || substr m "monthly") then
    some "get_meta_spend_month"
  else if substr m "spend" && substr m "today" then
    some "get_meta_spend_today"
  else if substr m "ga4" && substr m "active" && substr m "users" &&
      substr m "yesterday" then some "get_ga4_active_users_yesterday"
  else if substr m "ga4" && substr m "active" && substr m "users" &&
      (substr m "last 7 days" || substr m "7 days" || substr m "last week"
        || substr m "this week") then some "get_ga4_active_users_last_7_days"
  else if substr m "ga4" && substr m "active" && substr m "users" then
    some "get_ga4_active_users_today"
  else if substr m "ga4" && substr m "sessions" &&
      (substr m "month" || substr m "monthly") then
    some "get_ga4_sessions_month"
  else if substr m "ga4" && substr m "sessions" then
    some "get_ga4_sessions_today"
  else if substr m "ga4" && (substr m "top pages" || substr m "top page") then
    some "get_ga4_top_pages_today"
  else if substr m "instagram" || substr m "insta" || substr m "reel"
      || substr m "reels" then
    if reTest [kwAlt ["follower", "followers", "follow", "follows",
        "follw"]] m then some "get_instagram_account_overview"
    else if reTest [kwAlt ["best", "top", "better", "perform"]] m then
      some "get_instagram_best_reel"
    else if substr m "best" then some "get_instagram_best_reel"
    else if substr m "month" || substr m "monthly" then
      some "get_instagram_reels_month"
    else some "get_instagram_reels_today"
  else none

/-- Insertion-ordered set insert (`Set.add` of JavaScript). -/
def insertDistinct (l : List String) (a : String) : List String :=
  if a ∈ l then l else l ++ [a]

/-- `comparisonToolsForMessage`: the comparison tool bundle (at most 6). -/
def comparisonToolsForMessage (message : String) : List String :=
  let m := normalizeMessage message
  let mentionsMeta := reTest [.wb, kwAlt ["meta", "facebook", "ad", "ads",
    "campaign", "cpl", "spend", "lead"], .wb] m
  let mentionsGa4 := reTest [.wb, kw "ga4"] m ||
    reTest [kwAlt ["active users", "active user"]] m ||
    reTest [kwAlt ["sessions", "session"]] m ||
    reTest [kw "traffic"] m || reTest [kw "website", .wb] m
  let t0 : List String := []
  let t1 :=
    if mentionsMeta || !mentionsGa4 then
      let a := insertDistinct (insertDistinct t0 "get_meta_spend_today")
        "get_meta_spend_month"
      let a := if reTest [.wb, kwAlt ["leads", "lead"], .wb] m ||
          reTest [kwAlt ["campaign", "cpl"]] m then
        insertDistinct a "get_meta_leads_today" else a
      let a := if reTest [kwAlt ["campaign", "cpl", "best", "worst", "poor",
          "performance"]] m then
        insertDistinct a "get_meta_best_campaign" else a
      a
    else t0
  let t2 :=
    if mentionsGa4 || reTest [.wb, kwAlt ["users", "user"]] m ||
        reTest [kwAlt ["sessions", "session"]] m ||
        reTest [kw "yesterday"] m || reTest [kw "traffic", .wb] m then
      let a := if reTest [kwAlt ["yesterday", "users", "user", "active"]] m
        then
        insertDistinct (insertDistinct t1 "get_ga4_active_users_today")
          "get_ga4_active_users_yesterday"
        else t1
      let a := if reTest [kwAlt ["last 7 days", "7 days", "last week",
            "weekly", "week"]] m &&
          reTest [kwAlt ["users", "user", "active"]] m then
        insertDistinct a "get_ga4_active_users_last_7_days" else a
      let a := if reTest [kwAlt ["sessions", "session", "month", "monthly",
          "traffic"]] m then
        insertDistinct (insertDistinct a "get_ga4_sessions_today")
          "get_ga4_sessions_month"
        else a
      a
    else t1
  let t3 :=
    if t2.isEmpty then
      insertDistinct (insertDistinct (insertDistinct t2
        "get_meta_spend_today") "get_meta_spend_month") "get_meta_leads_today"
    else t2
  t3.take 6

/-- `defaultToolBundleForMessage`: the marketing default bundle (at most 3). -/
def defaultToolBundleForMessage (message : String) : List String :=
  let m := normalizeMessage message
  let t0 : List String := []
  let t1 := if reTest [kw "yesterday"] m &&
      (reTest [kw "ga4", .gap, kw "active users"] m ||
        reTest [kw "active users", .gap, kw "ga4"] m) then
    insertDistinct t0 "get_ga4_active_users_yesterday" else t0
  let t2 := if reTest [kwAlt ["last 7 days", "7 days", "last week",
        "this week", "week"]] m &&
      (reTest [kw "ga4", .gap, kw "active users"] m ||
        reTest [kw "active users", .gap, kw "ga4"] m) then
    insertDistinct t1 "get_ga4_active_users_last_7_days" else t1
  let t3 := if reTest [kwAlt ["meta", "ad", "campaign", "spend", "lead"]] m
    then
    let a := insertDistinct (insertDistinct t2 "get_meta_spend_today")
      "get_meta_leads_today"
    if reTest [kwAlt ["running", "active"]] m then
      insertDistinct a "get_meta_ads_running_today" else a
    else t2
  let t4 := if reTest [kwAlt ["month", "monthly"]] m then
    insertDistinct (insertDistinct t3 "get_meta_spend_month")
      "get_ga4_sessions_month"
    else t3
  let t5 := if reTest [kwAlt ["ga4", "traffic", "sessions", "users",
      "website"]] m then
    insertDistinct (insertDistinct t4 "get_ga4_active_users_today")
      "get_ga4_sessions_today"
    else t4
  let t6 := if reTest [kwAlt ["instagram", "insta", "reel", "reels"]] m then
    let a := if reTest [kwAlt ["follower", "followers", "follow", "follows",
        "follw"]] m then
      insertDistinct t5 "get_instagram_account_overview" else t5
    if reTest [kwAlt ["best", "top", "better", "perform"]] m then
      insertDistinct a "get_instagram_best_reel"
    else insertDistinct a "get_instagram_reels_today"
    else t5
  let t7 := if reTest [kwAlt ["campaign", "performance", "best", "worst",
      "poor", "underperform"]] m then
    insertDistinct t6 "get_meta_best_campaign" else t6
  let t8 := if t7.isEmpty then
    insertDistinct (insertDistinct (insertDistinct t7 "get_meta_spend_today")
      "get_meta_leads_today") "get_ga4_active_users_today"
    else t7
  t8.take 3

/-! ## Numeric request parsers -/

/-- Digits to a natural number (`Number` on a digit capture). -/
def digitsToNat (ds : List Char) : Nat :=
  ds.foldl (fun acc c => 10 * acc + (c.toNat - '0'.toNat)) 0

/-- The tail of the day pattern after the digits:
`\s*(?:-\s*)?day(s)?`. -/
def dayTailOk (l : List Char) : Bool :=
  let l1 := l.dropWhile Char.isWhitespace
  let l2 := match l1 with
    | '-' :: r => r.dropWhile Char.isWhitespace
    | _ => l1
  "day".data.isPrefixOf l2

/-- The digit capture of the first match of `/(\\d+)\\s*(?:-\\s*)?day(s)?/`.
Scanning skips a whole failed digit run: a start inside a digit run reaches
the same tail, so this is the regex's leftmost match. -/
def daysScanGo : Nat → List Char → Option (List Char)
  | 0, _ => none
  | _ + 1, [] => none
  | fuel + 1, c :: rest =>
    if c.isDigit then
      let ds := c :: rest.takeWhile Char.isDigit
      let after := rest.dropWhile Char.isDigit
      if dayTailOk after then some ds else daysScanGo fuel after
    else daysScanGo fuel rest

/-- `daysScanGo` at its sufficient fuel (every step consumes at least one
character). -/
def daysScan (l : List Char) : Option (List Char) := daysScanGo l.length l

/-- `parseRequestedDays`: lowercase, find the day pattern, keep 1..31. -/
def parseRequestedDays (message : String) : Option Nat :=
  match daysScan (lowerStr message).data with
  | none => none
  | some ds =>
    let days := digitsToNat ds
    if days = 0 || days > 31 then none else some days

/-- The tail of the hour pattern after the number:
`\s*(hour|hours|hr|hrs)`. -/
def hourTailOk (l : List Char) : Bool :=
  let l1 := l.dropWhile Char.isWhitespace
  ["hour", "hours", "hr", "hrs"].any (fun w => w.data.isPrefixOf l1)

/-- The numeric capture of the first match of
`/(\\d+(?:\\.\\d+)?)\\s*(hour|hours|hr|hrs)/` as an exact rational.  The
fractional part is taken greedily when a dot with digits follows (as the
regex does); otherwise the optional group matches empty. -/
def hoursScanGo : Nat → List Char → Option Rat
  | 0, _ => none
  | _ + 1, [] => none
  | fuel + 1, c :: rest =>
    if c.isDigit then
      let ds := c :: rest.takeWhile Char.isDigit
      let afterInt := rest.dropWhile Char.isDigit
      let intPart : Rat := (digitsToNat ds : Int)
      match afterInt.head? with
      | some '.' =>
        let fs := (afterInt.drop 1).takeWhile Char.isDigit
        if fs.isEmpty then
          if hourTailOk afterInt then some intPart
          else hoursScanGo fuel afterInt
        else
          let afterFrac := afterInt.drop (fs.length + 1)
          let q : Rat := intPart +
            (digitsToNat fs : Int) / ((10 : Int) ^ fs.length : Int)
          if hourTailOk afterFrac then some q else hoursScanGo fuel afterFrac
      | _ =>
        if hourTailOk afterInt then some intPart else hoursScanGo fuel afterInt
    else hoursScanGo fuel rest

/-- `hoursScanGo` at its sufficient fuel. -/
def hoursScan (l : List Char) : Option Rat := hoursScanGo l.length l

/-! ## Response formatters -/

/-- Render a rational for display (`toString` of a JavaScript number; exact
digit strings are not part of any claim). -/
def ratDisp (q : Rat) : String :=
  if q.den = 1 then toString q.num
  else toString q.num ++ "/" ++ toString q.den

/-- Display an optional number; `none` is `NaN`. -/
def optNumStr : Option Rat → String
  | some q => ratDisp q
  | none => "NaN"

/-- `formatCurrency` (the `Intl` grouping is abstracted; see the header
note: this is also the source's own `catch` fallback rendering). -/
def formatCurrency (v : Option Rat) (currency : String) : String :=
  currency ++ " " ++ optNumStr v

/-- `formatNumber`: `-` for a non-finite value. -/
def formatNumber : Option Rat → String
  | none => "-"
  | some q => ratDisp q

/-- `formatDelta`. -/
def formatDelta (v : Option Rat) (asCurrency : Bool) : String :=
  match v with
  | none => "-"
  | some q =>
    let sign := if q > 0 then "+" else ""
    if asCurrency then sign ++ formatCurrency (some q) "INR"
    else sign ++ formatNumber (some q)

/-- `Array.prototype.join("\n")`. -/
def joinLines : List String → String
  | [] => ""
  | [a] => a
  | a :: rest => a ++ "\n" ++ joinLines rest

/-- Optional chaining `v?.k`. -/
def chainField (v : JVal) (k : String) : JVal :=
  match v with
  | .null => .undefined
  | .undefined => .undefined
  | _ => jget v k

/-- `Number(v?.k ?? 0)`. -/
def chainNumZero (v : JVal) (k : String) : Option Rat :=
  toNumber (jcoalesce (chainField v k) (.num 0))

/-- `formatToolAnswer`: the per-tool single-result phrasing. -/
def formatToolAnswer (tool : String) (result : JVal) : String :=
  match result with
  | .obj _ =>
    if tool = "get_meta_leads_today" then
      "You have " ++ optNumStr (numField result "leads" 0) ++
        " Meta leads today."
    else if tool = "get_meta_leads_last_30d" then
      "You have " ++ optNumStr (numField result "leads" 0) ++
        " Meta leads in the last 30 days."
    else if tool = "get_meta_ads_running_today" then
      "You have " ++ optNumStr (numField result "active_ads" 0) ++
        " active ads, and " ++
        optNumStr (numField result "ads_with_spend_today" 0) ++
        " ads delivered spend today."
    else if tool = "get_meta_spend_today" then
      "Your Meta spend today is " ++
        formatCurrency (numField result "spend" 0)
          (jStrOr (jget result "currency") "INR") ++ "."
    else if tool = "get_meta_spend_month" then
      "Your Meta spend this month is " ++
        formatCurrency (numField result "spend" 0)
          (jStrOr (jget result "currency") "INR") ++ "."
    else if tool = "get_meta_best_campaign" then
      let best := jget result "best"
      let window := jStrOr (chainField result "window") "today"
      let windowLabel := if window = "maximum" then "all time"
        else if window = "this_month" then "this month" else "today"
      if !best.truthy then
        "No campaign performance data is available for " ++ windowLabel ++ "."
      else
        "Your best campaign for " ++ windowLabel ++ " is " ++
          jStrOr (jget best "campaign_name") "Unknown campaign" ++
          ". It generated " ++ optNumStr (numField best "leads" 0) ++
          " leads with " ++
          formatCurrency (numField best "spend" 0) "INR" ++ " spend at " ++
          formatCurrency (numField best "cpl" 0) "INR" ++ " CPL."
    else if tool = "get_ga4_active_users_today" then
      "You have " ++ optNumStr (numField result "active_users" 0) ++
        " GA4 active users today."
    else if tool = "get_ga4_active_users_yesterday" then
      "You had " ++ optNumStr (numField result "active_users" 0) ++
        " GA4 active users yesterday."
    else if tool = "get_ga4_active_users_last_7_days" then
      "You had " ++ optNumStr (numField result "active_users" 0) ++
        " GA4 active users in the last 7 days."
    else if tool = "get_ga4_sessions_today" then
      "You have " ++ optNumStr (numField result "sessions" 0) ++
        " GA4 sessions today."
    else if tool = "get_ga4_sessions_month" then
      "You have " ++ optNumStr (numField result "sessions" 0) ++
        " GA4 sessions this month."
    else if tool = "get_ga4_top_pages_today" then
      let rows := (jget result "rows").arrElems
      if rows.isEmpty then "No top page data is available for today."
      else
        let top := (rows.take 3).enum.map (fun e =>
          let i := e.1
          let r := e.2
          let title := if (jget r "pageTitle").truthy then jStr (jget r "pageTitle")
            else if (jget r "pagePath").truthy then jStr (jget r "pagePath")
            else "Page " ++ toString (i + 1)
          toString (i + 1) ++ ". " ++ title ++ " (" ++
            optNumStr (numField r "views" 0) ++ " views)")
        "Top pages today:\n" ++ joinLines top
    else if tool = "get_instagram_reels_today" ||
        tool = "get_instagram_reels_month" then
      let window := if tool = "get_instagram_reels_month" then "this month"
        else "today"
      "Instagram Reels " ++ window ++ ": " ++
        optNumStr (chainNumZero result "reels_count") ++ " reels, " ++
        formatNumber (chainNumZero result "total_plays") ++ " plays, " ++
        formatNumber (chainNumZero result "total_reach") ++ " reach, " ++
        formatNumber (chainNumZero result "total_saved") ++ " saves."
    else if tool = "get_instagram_best_reel" then
      let best := chainField result "best"
      let window := jStrOr (chainField result "window") "today"
      let windowLabel := if window = "maximum" then "all time"
        else if window = "this_month" then "this month" else "today"
      if !best.truthy then
        "No Instagram Reel data available for " ++ windowLabel ++ "."
      else
        "Best Instagram Reel for " ++ windowLabel ++ ": \"" ++
          (jStrOr (jget best "caption") "Untitled Reel").take 80 ++
          "\" with " ++ formatNumber (numField best "plays" 0) ++
          " plays, " ++ formatNumber (numField best "reach" 0) ++
          " reach, and " ++ formatNumber (numField best "saved" 0) ++
          " saves."
    else if tool = "get_instagram_account_overview" then
      let account := if (chainField result "account").truthy then
        chainField result "account" else .obj []
      let uname := strTrim (jStrOr (jget account "username") "")
      "Instagram account " ++ (if uname = "" then "(unknown)" else uname) ++
        " has " ++ formatNumber (numField account "followers_count" 0) ++
        " followers, follows " ++
        formatNumber (numField account "follows_count" 0) ++
        " accounts, and has " ++
        formatNumber (numField account "media_count" 0) ++ " media posts."
    else
      match jget result "ok" with
      | .bool false =>
        if (jget result "error").truthy then
          let detail := if (jget result "primary_error").truthy then
            " (" ++ jStr (jget result "primary_error") ++ ")" else ""
          "I couldn\x27t complete that request: " ++
            jStr (jget result "error") ++ detail
        else "I completed the request successfully."
      | _ => "I completed the request successfully."
  | _ => "I got a response, but could not parse it."

/-- `byTool.get(name)` over the accumulated `[{name, result}]` array (a
`Map` built by iteration: a later entry wins). -/
def lookupTool (trs : List (String × JVal)) (n : String) : JVal :=
  match trs.reverse.find? (fun e => e.1 = n) with
  | some e => e.2
  | none => .undefined

/-- `getMonthProgress` is time-dependent; the model receives
`(dayOfMonth, daysInMonth)` from the environment and computes
`remainingDays` as the source does (truncated subtraction is the
`Math.max(0, ...)`). -/
def remainingDaysOf (mp : Nat × Nat) : Nat := mp.2 - mp.1

/-- `buildComparisonTableAnswer`: the literal markdown comparison table.
Row order and cell templates follow the source; `mp` is the month
progress, `nowIso` the `new Date().toISOString()` fallback. -/
def buildComparisonTableAnswer (mp : Nat × Nat) (nowIso : String)
    (message : String) (toolResults : List (String × JVal)) : String :=
  let dayOfMonth := mp.1
  let daysInMonth := mp.2
  let spendToday := numOrNaN (chainField
    (lookupTool toolResults "get_meta_spend_today") "spend")
  let spendMonth := numOrNaN (chainField
    (lookupTool toolResults "get_meta_spend_month") "spend")
  let metaRows :=
    match spendToday, spendMonth with
    | some st, some sm =>
      let avgDailyMonth := sm / (max 1 (dayOfMonth : Rat))
      let delta := st - avgDailyMonth
      let projectedEom := sm + st * (remainingDaysOf mp : Rat)
      let paceInsight := if delta >= 0 then "Above month pace (overspend risk)"
        else "Below month pace (underspend pace)"
      [ "| Meta spend (today vs month avg/day) | " ++
          formatCurrency (some st) "INR" ++ " | " ++
          formatCurrency (some avgDailyMonth) "INR" ++ " | " ++
          formatDelta (some delta) true ++ " | " ++ paceInsight ++ " |",
        "| Meta month projection (if today\x27s pace continues) | " ++
          formatCurrency (some projectedEom) "INR" ++ " | " ++
          formatCurrency (some sm) "INR" ++ " (spent till now) | " ++
          formatDelta (some (projectedEom - sm)) true ++ " | Day " ++
          toString dayOfMonth ++ "/" ++ toString daysInMonth ++ " |" ]
    | _, _ => []
  let leadsToday := numOrNaN (chainField
    (lookupTool toolResults "get_meta_leads_today") "leads")
  let cplRows :=
    match leadsToday, spendToday with
    | some lt, some st =>
      if lt > 0 then
        [ "| Meta CPL (today) | " ++ formatCurrency (some (st / lt)) "INR" ++
            " | " ++ formatCurrency (some st) "INR" ++ " / " ++
            formatNumber (some lt) ++ " leads | - | Efficiency snapshot |" ]
      else []
    | _, _ => []
  let best := chainField (lookupTool toolResults "get_meta_best_campaign")
    "best"
  let bestRows :=
    if best.truthy then
      [ "| Best campaign today | " ++
          jStrOr (jget best "campaign_name") "Unknown" ++ " | CPL " ++
          formatCurrency (numOrNaN (jget best "cpl")) "INR" ++ " | Leads " ++
          formatNumber (numOrNaN (jget best "leads")) ++ " | Spend " ++
          formatCurrency (numOrNaN (jget best "spend")) "INR" ++ " |" ]
    else []
  let ga4Today := numOrNaN (chainField
    (lookupTool toolResults "get_ga4_active_users_today") "active_users")
  let ga4Yesterday := numOrNaN (chainField
    (lookupTool toolResults "get_ga4_active_users_yesterday") "active_users")
  let ga4Last7 := numOrNaN (chainField
    (lookupTool toolResults "get_ga4_active_users_last_7_days")
    "active_users")
  let ga4Rows :=
    match ga4Today, ga4Yesterday with
    | some t, some y =>
      let delta := t - y
      let insight := if delta >= 0 then "Traffic up vs yesterday"
        else "Traffic down vs yesterday"
      [ "| GA4 active users (today vs yesterday) | " ++
          formatNumber (some t) ++ " | " ++ formatNumber (some y) ++ " | " ++
          formatDelta (some delta) false ++ " | " ++ insight ++ " |" ]
    | _, _ => []
  let ga4WeekRows :=
    match ga4Last7 with
    | some u =>
      [ "| GA4 active users (last 7 days) | " ++ formatNumber (some u) ++
          " | - | - | Weekly audience volume |" ]
    | none => []
  let sessionsToday := numOrNaN (chainField
    (lookupTool toolResults "get_ga4_sessions_today") "sessions")
  let sessionsMonth := numOrNaN (chainField
    (lookupTool toolResults "get_ga4_sessions_month") "sessions")
  let sessRows :=
    match sessionsToday, sessionsMonth with
    | some st, some sm =>
      let avgDaily := sm / (max 1 (dayOfMonth : Rat))
      let delta := st - avgDaily
      [ "| GA4 sessions (today vs month avg/day) | " ++
          formatNumber (some st) ++ " | " ++ formatNumber (some avgDaily) ++
          " | " ++ formatDelta (some delta) false ++ " | " ++
          (if delta >= 0 then "Above average day" else "Below average day") ++
          " |" ]
    | _, _ => []
  let rows := ["| Metric | Current | Baseline | Delta | Insight |",
      "|---|---:|---:|---:|---|"] ++
    metaRows ++ cplRows ++ bestRows ++ ga4Rows ++ ga4WeekRows ++ sessRows
  let asOfCands := [
    chainField (lookupTool toolResults "get_meta_spend_today") "as_of_ist",
    chainField (lookupTool toolResults "get_meta_spend_month") "as_of_ist",
    chainField (lookupTool toolResults "get_meta_leads_today") "as_of_ist",
    chainField (lookupTool toolResults "get_ga4_active_users_today")
      "as_of_ist",
    chainField (lookupTool toolResults "get_ga4_sessions_today") "as_of_ist"]
  let asOf := match asOfCands.find? JVal.truthy with
    | some v => jStr v
    | none => nowIso
  joinLines ["Comparison for: \"" ++ strTrim message ++ "\"", "",
    joinLines rows, "", "As of: " ++ asOf]

/-! ## Advisory action-plan builders -/

/-- The best-campaign display name the lead-quality plan interpolates:
`String(best?.campaign_name || "best-performing campaign")`. -/
def lqBestName (toolResults : List (String × JVal)) : String :=
  jStrOr (chainField (chainField (lookupTool toolResults
    "get_meta_best_campaign") "best") "campaign_name")
    "best-performing campaign"

/-- `buildLeadQualityActionsAnswer`, as its line list (the answer is the
lines joined with `"\n"`). -/
def buildLeadQualityActionsLines (toolResults : List (String × JVal)) :
    List String :=
  let leads := chainNumZero (lookupTool toolResults "get_meta_leads_today")
    "leads"
  let spend := chainNumZero (lookupTool toolResults "get_meta_spend_today")
    "spend"
  let cpl : Option Rat :=
    match leads with
    | some l => if l > 0 then spend.map (fun s => s / l) else some 0
    | none => some 0
  let best := chainField (lookupTool toolResults "get_meta_best_campaign")
    "best"
  let bestName := lqBestName toolResults
  let bestCpl := chainNumZero best "cpl"
  let leadsPos := match leads with
    | some l => decide (l > 0)
    | none => false
  [ "Top 3 actions to improve lead quality today:",
    "1. Shift 15-25% budget toward " ++ bestName ++
      (match bestCpl with
       | some b => if b > 0 then
           " (CPL " ++ formatCurrency (some b) "INR" ++ ")" else ""
       | none => "") ++
      " and reduce weak ad sets.",
    "2. Tighten lead form quality filters: add one qualifying question " ++
      "(budget/timeline) and remove low-intent options.",
    "3. Align ad promise with landing page proof: same hook, stronger " ++
      "trust signals (case studies, testimonials, guarantee).",
    "",
    "Current snapshot: " ++ optNumStr leads ++ " leads, " ++
      formatCurrency spend "INR" ++ " spend" ++
      (if leadsPos then ", CPL " ++ formatCurrency cpl "INR" else "") ++ "." ]

/-- `buildReduceCplAnswer`, as its line list. -/
def buildReduceCplLines (toolResults : List (String × JVal)) : List String :=
  let leads := chainNumZero (lookupTool toolResults "get_meta_leads_today")
    "leads"
  let spend := chainNumZero (lookupTool toolResults "get_meta_spend_today")
    "spend"
  let cpl : Option Rat :=
    match leads with
    | some l => if l > 0 then spend.map (fun s => s / l) else none
    | none => none
  let bestTool := lookupTool toolResults "get_meta_best_campaign"
  let best := chainField bestTool "best"
  let top := (chainField bestTool "top").arrElems
  let worst := match top.getLast? with
    | some v => v
    | none => .null
  let bestName := jStrOr (chainField best "campaign_name") "Best campaign"
  let bestCpl := numOrNaN (chainField best "cpl")
  let worstName := jStrOr (chainField worst "campaign_name") "Weak campaign"
  let worstCpl := numOrNaN (chainField worst "cpl")
  [ "Current CPL today: " ++
      (match cpl with
       | some c => formatCurrency (some c) "INR"
       | none => "N/A (no leads yet)"),
    bestName ++ " CPL: " ++
      (match bestCpl with
       | some c => formatCurrency (some c) "INR"
       | none => "N/A"),
    worstName ++ " CPL: " ++
      (match worstCpl with
       | some c => formatCurrency (some c) "INR"
       | none => "N/A"),
    "",
    "Best actions to reduce CPL from today\x27s data:",
    "1. Reallocate 20-30% budget from " ++ worstName ++ " to " ++ bestName ++
      ".",
    "2. Pause ad sets with high spend and zero/low leads for 24h, then " ++
      "restart only winners.",
    "3. Launch 2 fresh creatives and 1 tighter audience segment to reduce " ++
      "fatigue-driven CPL." ]

/-- The waste sort key `Number(r?.spend ?? 0) / Math.max(1, Number(r?.leads
?? 0))` of `buildBudgetWasteAnswer` (a `NaN` coordinate, which would make
the JavaScript comparator unspecified, is read as 0; no claim depends on
the resulting order). -/
def wasteKey (r : JVal) : Rat :=
  ((chainNumZero r "spend").getD 0) / max 1 ((chainNumZero r "leads").getD 0)

/-- The budget-waste sort: waste descending, then spend descending. -/
def wasteLE (a b : JVal) : Bool :=
  if wasteKey a = wasteKey b then
    ((chainNumZero b "spend").getD 0) <= ((chainNumZero a "spend").getD 0)
  else wasteKey b <= wasteKey a

/-- The no-data guard of `buildBudgetWasteAnswer`:
`!rows.length || totalSpend <= 0` (a `NaN` total compares false). -/
def budgetWasteNoData (toolResults : List (String × JVal)) : Bool :=
  let totalSpend := chainNumZero (lookupTool toolResults
    "get_meta_spend_today") "spend"
  let rows := (chainField (lookupTool toolResults "get_meta_best_campaign")
    "top").arrElems
  let lowSpend := match totalSpend with
    | some t => decide (t <= 0)
    | none => false
  rows.isEmpty || lowSpend

/-- `buildBudgetWasteAnswer`, as its line list. -/
def buildBudgetWasteLines (toolResults : List (String × JVal)) :
    List String :=
  let totalSpend := chainNumZero (lookupTool toolResults
    "get_meta_spend_today") "spend"
  let rows := (chainField (lookupTool toolResults "get_meta_best_campaign")
    "top").arrElems
  if budgetWasteNoData toolResults then
    [ "I couldn\x27t find enough campaign rows to locate budget waste today.",
      "Current total spend: " ++ formatCurrency totalSpend "INR" ++ "." ]
  else
    let sorted := rows.insertionSort (fun a b => wasteLE a b = true)
    let worst := match sorted.head? with
      | some v => v
      | none => .null
    let best := match sorted.getLast? with
      | some v => v
      | none => .null
    let worstName := jStrOr (chainField worst "campaign_name")
      "Unknown campaign"
    let worstSpend := chainNumZero worst "spend"
    let worstLeads := chainNumZero worst "leads"
    let worstCpl := numOrNaN (chainField worst "cpl")
    -- `totalSpend > 0 ? worstSpend / totalSpend * 100 : 0` (NaN > 0 is
    -- false, so a NaN total also yields 0)
    let wasteShare : Option Rat := match totalSpend with
      | some t =>
        if t > 0 then worstSpend.map (fun ws => ws / t * 100) else some 0
      | none => some 0
    let bestName := jStrOr (chainField best "campaign_name") "Best campaign"
    [ "Budget waste check (today):",
      "- Likely waste is in: " ++ worstName,
      "- Spend: " ++ formatCurrency worstSpend "INR" ++ " (" ++
        formatNumber wasteShare ++ "% of today\x27s spend)",
      "- Leads: " ++ formatNumber worstLeads,
      "- CPL: " ++
        (match worstCpl with
         | some c => formatCurrency (some c) "INR"
         | none => "N/A"),
      "",
      "Action now:",
      "1. Move 20-30% budget from " ++ worstName ++ " to " ++ bestName ++ ".",
      "2. Pause low-intent placements/audiences in the weak campaign for " ++
        "24h.",
      "3. Replace weak creatives with one new hook + one social-proof " ++
        "variant." ]

/-- The poor-performance sort of `formatWorstCampaignAnswer`: leads
ascending, then CPL descending, then spend descending (`?? 0` reads, with
a `NaN` read as 0 as in `wasteKey`). -/
def worstLE (a b : JVal) : Bool :=
  let aL := (chainNumZero a "leads").getD 0
  let bL := (chainNumZero b "leads").getD 0
  if aL = bL then
    let aC := (chainNumZero a "cpl").getD 0
    let bC := (chainNumZero b "cpl").getD 0
    if aC = bC then
      ((chainNumZero b "spend").getD 0) <= ((chainNumZero a "spend").getD 0)
    else bC <= aC
  else aL <= bL

/-- `formatWorstCampaignAnswer`. -/
def formatWorstCampaignAnswer (result : JVal) : String :=
  let rows := (chainField result "top").arrElems
  if rows.isEmpty then
    "I couldn\x27t find campaign rows to identify poor performance today."
  else
    let sorted := rows.insertionSort (fun a b => worstLE a b = true)
    let worst := match sorted.head? with
      | some v => v
      | none => .null
    let name := jStrOr (chainField worst "campaign_name") "Unknown campaign"
    let leads := chainNumZero worst "leads"
    let spend := chainNumZero worst "spend"
    let cpl := chainNumZero worst "cpl"
    let cmp : Option Rat → (Rat → Bool) → Bool := fun v p =>
      match v with
      | some q => p q
      | none => false
    let reason :=
      if cmp leads (fun l => l <= 1) && cmp spend (fun s => s > 0) then
        "very low leads despite spend"
      else if cmp cpl (fun c => c > 0) && cmp cpl (fun c => c > 500) then
        "high CPL"
      else if cmp spend (fun s => s > 3000) && cmp leads (fun l => l < 5) then
        "high spend with weak conversion"
      else "low lead volume"
    "Your poorest performer today looks like " ++ name ++ ". It has " ++
      optNumStr leads ++ " leads, " ++ formatCurrency spend "INR" ++
      " spend, and " ++ formatCurrency cpl "INR" ++ " CPL. Main reason: " ++
      reason ++ "."

/-- `buildAdvisorAnswer`, as its line list. -/
def buildAdvisorLines (message : String) (toolResults : List (String × JVal)) :
    List String :=
  let m := normalizeMessage message
  let snapshot :=
    if toolResults.isEmpty then []
    else "Here is your current snapshot:" ::
      toolResults.map (fun tr => "- " ++ formatToolAnswer tr.1 tr.2)
  let actions :=
    if reTest [kwAlt ["conversion", "landing", "cvr", "lead"]] m then
      [ "1. Improve landing page headline + CTA match with ad promise.",
        "2. Reduce form friction (fewer fields, stronger trust proof).",
        "3. Shift budget to audiences/campaigns with lowest CPL." ]
    else if reTest [kwAlt ["creative", "copy", "hook", "ad"]] m then
      [ "1. Launch 3 fresh creatives with distinct hooks (problem, proof, " ++
          "offer).",
        "2. Pause ads with high spend but weak lead volume.",
        "3. Reallocate spend to winners every 24 hours." ]
    else if reTest [kwAlt ["budget", "spend", "roas", "cpa", "cpl"]] m then
      [ "1. Cap spend on high-CPL segments and scale efficient segments.",
        "2. Track CPL/CPC trend daily and stop fatigue creatives early.",
        "3. Keep 10-20% budget for testing to avoid performance decay." ]
    else if reTest [kwAlt ["ga4", "sessions", "users", "traffic"]] m then
      [ "1. Identify top traffic pages and strengthen conversion CTA there.",
        "2. Compare source/medium quality, not just traffic volume.",
        "3. Fix drop-off points in funnel pages with high exits." ]
    else
      [ "1. Start from yesterday vs today trend in spend, leads, and users.",
        "2. Double down on segments with best efficiency, cut weak ones.",
        "3. Run controlled experiments and review results every day." ]
  snapshot ++ ["", "Recommended next actions:"] ++ actions

/-- `fallbackUniversalAnswer`: the canned topic-aware guidance. -/
def fallbackUniversalAnswer (rawMessage : String) : String :=
  let q := strTrim rawMessage
  let m := normalizeMessage q
  if reTest [kwAlt ["seo", "organic", "keyword", "blog", "content"]] m then
    joinLines [ "I understood your question: \"" ++ q ++ "\".", "",
      "Quick SEO plan:",
      "1. Pick 1 primary keyword + 3 supporting long-tail keywords per page.",
      "2. Improve title/H1/meta description and match search intent.",
      "3. Publish 2 authority articles/week and interlink to conversion " ++
        "pages.",
      "4. Track rankings + CTR + conversions, not only traffic." ]
  else if reTest [kwAlt ["sales", "closing", "lead quality", "funnel",
      "crm"]] m then
    joinLines [ "I understood your question: \"" ++ q ++ "\".", "",
      "Quick sales/funnel plan:",
      "1. Define MQL and SQL criteria clearly.",
      "2. Add lead scoring based on source, intent, and fit.",
      "3. Create a 3-step follow-up sequence (15 min, 24 hr, 72 hr).",
      "4. Review stage-wise drop-offs weekly and fix the largest leak " ++
        "first." ]
  else if reTest [kwAlt ["copy", "ad copy", "headline", "hook",
      "creative"]] m then
    joinLines [ "I understood your question: \"" ++ q ++ "\".", "",
      "Quick creative/copy framework:",
      "1. Hook: pain, dream outcome, or bold claim.",
      "2. Proof: data, testimonial, or case result.",
      "3. Offer: clear benefit + urgency.",
      "4. CTA: one specific next step." ]
  else if reTest [kwAlt ["budget", "pricing", "profit", "roi", "roas",
      "finance"]] m then
    joinLines [ "I understood your question: \"" ++ q ++ "\".", "",
      "Quick budget control plan:",
      "1. Split spend into scale (70%), test (20%), reserve (10%).",
      "2. Pause assets above target CPL/CPA threshold.",
      "3. Reallocate daily to best efficiency segments.",
      "4. Track blended CAC, payback period, and gross margin impact." ]
  else
    joinLines [ "I understood your question: \"" ++ q ++ "\".", "",
      "Here is a practical way to proceed:",
      "1. Define the exact goal (revenue, leads, CAC, conversion, " ++
        "retention).",
      "2. Identify the single biggest constraint right now.",
      "3. Run 3 focused experiments with clear success criteria.",
      "4. Keep winners, stop losers, and iterate weekly.", "",
      "If you want, ask again with your objective and timeframe, and " ++
        "I’ll give a precise action plan." ]

/-! ## Retrieval-augmented matcher -/

/-- The stop-word set of the chat route. -/
def STOP_WORDS : List String :=
  ["a", "an", "the", "is", "are", "was", "were", "to", "for", "of", "in",
   "on", "my", "me", "you", "your", "this", "that", "it", "and", "or",
   "with", "please", "can", "could", "would", "should", "how", "what",
   "show", "give"]

/-- A lowercase ASCII letter or digit (everything else is blanked before
token splitting: `replace(/[^a-z0-9\s]/g, " ")` on normalized text). -/
def lowerAlnum (c : Char) : Bool :=
  ('a' <= c && c <= 'z') || c.isDigit

/-- Split a character list on whitespace. -/
def splitWsGo : Nat → List Char → List (List Char)
  | 0, _ => []
  | _ + 1, [] => []
  | fuel + 1, c :: rest =>
    if c.isWhitespace then splitWsGo fuel rest
    else
      let w := c :: rest.takeWhile (fun d => !d.isWhitespace)
      w :: splitWsGo fuel (rest.dropWhile (fun d => !d.isWhitespace))

/-- `splitWsGo` at its sufficient fuel. -/
def splitWs (l : List Char) : List (List Char) := splitWsGo l.length l

/-- `tokenize`: normalize, blank non-alphanumerics, split, keep words of
length over one that are not stop words. -/
def tokenize (text : String) : List String :=
  let blanked := (normalizeMessage text).data.map
    (fun c => if lowerAlnum c || c.isWhitespace then c else ' ')
  ((splitWs blanked).map String.mk).filter
    (fun w => w.length > 1 && !(w ∈ STOP_WORDS))

/-- Insertion-ordered de-duplication, `Array.from(new Set(...))`. -/
def dedupFirst (l : List String) : List String :=
  l.foldl insertDistinct []

/-- A corpus entry: the prompt text and its (de-duplicated) token set. -/
structure PromptDoc where
  text : String
  tokens : List String
  deriving Repr

/-- `overlapScore`: `|query ∩ entry| / max(3, min(|entry|, |query|))`
(counted over the candidate's token list, which the corpus loader has
de-duplicated). -/
def overlapScore (queryTokens candidateTokens : List String) : Rat :=
  if queryTokens.isEmpty || candidateTokens.isEmpty then 0
  else
    ((candidateTokens.countP (fun t => t ∈ queryTokens) : Int) : Rat) /
      (max 3 (min candidateTokens.length queryTokens.length) : Int)

/-- The inverted index lookup `tokenToDocIds.get(token)`: indices of the
corpus entries containing the token, in corpus order (how the index is
built). -/
def docsWithToken (corpus : List PromptDoc) (tok : String) : List Nat :=
  (List.range corpus.length).filter (fun i =>
    match corpus.get? i with
    | some d => tok ∈ d.tokens
    | none => false)

/-- The candidate ids accumulated over the query tokens, in first-insertion
order (the iteration order of the `candidateScores` map). -/
def candidateIds (corpus : List PromptDoc) (qTokens : List String) :
    List Nat :=
  qTokens.foldl (fun acc t =>
    (docsWithToken corpus t).foldl
      (fun a i => if i ∈ a then a else a ++ [i]) acc) []

/-- The document frequency of a token: `docIds.length` of the inverted
index. -/
def docFreq (corpus : List PromptDoc) (tok : String) : Nat :=
  (docsWithToken corpus tok).length

/-- The accumulated candidate score of the pre-filter: the sum of
`tokenWeight = 1 / Math.sqrt(docIds.length)` over the (de-duplicated)
query tokens whose posting list contains the candidate.  The weights are
irrational, so the score is the exact real the source's float64
accumulation computes; a token with an empty posting list contributes
nothing, as in the source's `continue`. -/
noncomputable def candScore (corpus : List PromptDoc)
    (qTokens : List String) (i : Nat) : Real :=
  ((qTokens.filter (fun t => i ∈ docsWithToken corpus t)).map
    (fun t => 1 / Real.sqrt (docFreq corpus t))).sum

/-- `Array.from(candidateScores.entries()).sort((a, b) => b[1] - a[1])`:
the candidates (in the score map's insertion order) sorted by
accumulated score descending.  `Array.prototype.sort` is stable and the
comparator is a total preorder, so the stable `insertionSort` is the
unique order the source produces. -/
noncomputable def rankCandidates (corpus : List PromptDoc)
    (qTokens : List String) : List Nat :=
  @List.insertionSort Nat
    (fun a b => candScore corpus qTokens b <= candScore corpus qTokens a)
    (fun _ _ => Classical.propDecidable _)
    (candidateIds corpus qTokens)

/-- The ranked entries of the retrieval matcher: the pre-filter keeps the
top 320 candidates by accumulated score, then each kept candidate is
scored by `overlapScore`, entries scoring at least 0.15 are kept, sorted
by score descending (stable) and capped at 12. -/
noncomputable def rankedEntries (corpus : List PromptDoc)
    (message : String) : List (String × Rat) :=
  let normalized := normalizeMessage message
  let qTokens := dedupFirst (tokenize normalized)
  if qTokens.isEmpty then []
  else
    let candidateDocIds := (rankCandidates corpus qTokens).take 320
    let scored := candidateDocIds.filterMap (fun i =>
      (corpus.get? i).map (fun d => (d.text, overlapScore qTokens d.tokens)))
    ((scored.filter (fun x => (3 : Rat) / 20 <= x.2)).insertionSort
      (fun a b => b.2 <= a.2)).take 12

/-- `for (const p of matchedPrompts) { if (t) tools.add(t); if (tools.size
>= 3) break; }` of the retrieval matcher (recursion on the prompt list). -/
def promptLoopGo (g : String → Option String) :
    List String → List String → List String
  | [], acc => acc
  | p :: ps, acc =>
    let acc2 := match g p with
      | some t => insertDistinct acc t
      | none => acc
    if 3 <= acc2.length then acc2 else promptLoopGo g ps acc2

/-- The loop with the source's argument order and its inference
function. -/
def promptLoop (acc ps : List String) : List String :=
  promptLoopGo inferToolFromText ps acc

/-- The harvested tool list: the query itself first, then an overview
bundle when no direct tool matched, then the matched prompts (stopping at
three), then the marketing default bundle, capped at three. -/
noncomputable def retrievedTools (corpus : List PromptDoc)
    (message : String) : List String :=
  let matchedPrompts := (rankedEntries corpus message).map Prod.fst
  let m := normalizeMessage message
  let fromQuestion := inferToolFromText m
  let t0 : List String := match fromQuestion with
    | some t => [t]
    | none => []
  let t1 :=
    if fromQuestion.isNone && reTest [kwAlt ["overview", "overall",
        "snapshot", "summary", "performance"]] m then
      let a := if reTest [.wb, kw "meta", .wb] m then
        insertDistinct t0 "get_meta_spend_today" else t0
      if reTest [.wb, kw "ga4", .wb] m then
        insertDistinct a "get_ga4_active_users_today" else a
    else t0
  let t2 := promptLoop t1 matchedPrompts
  let t3 :=
    if t2.isEmpty && isMarketingIntent m then
      (defaultToolBundleForMessage m).foldl insertDistinct t2
    else t2
  t3.take 3

/-- The result record of `retrieveRelatedPromptsAndTools`. -/
structure RelatedResult where
  matchedPrompts : List String
  tools : List String
  deriving Repr

/-- The pure computation of `retrieveRelatedPromptsAndTools` (its cache
wrapper is threaded in the chat pipeline below). -/
noncomputable def retrievePure (corpus : List PromptDoc)
    (message : String) : RelatedResult :=
  { matchedPrompts := (rankedEntries corpus message).map Prod.fst,
    tools := retrievedTools corpus message }

/-! ## Caches and the chat pipeline

`handleChatMessage` models `router.post("/")` of the chat route: one
request against an environment (tool runner, provider availability, time,
corpus) and the shared cache state, producing a response and the new
state.  The branch chain is split into `chatStage...` functions, one per
sequential `return` of the source, preserving its exact order. -/

/-- `RESPONSE_CACHE_TTL_MS`. -/
def RESPONSE_CACHE_TTL_MS : Nat := 25 * 1000

/-- `PROMPT_RETRIEVAL_TTL_MS`. -/
def PROMPT_RETRIEVAL_TTL_MS : Nat := 10 * 60 * 1000

/-- `MAX_RESPONSE_CACHE`. -/
def MAX_RESPONSE_CACHE : Nat := 1000

/-- `MAX_PROMPT_RETRIEVAL_CACHE`. -/
def MAX_PROMPT_RETRIEVAL_CACHE : Nat := 5000

/-- A response payload: `{ ok, answer, tools, meta: { mode } }`.  The
request-id diagnostic of `meta` is not modelled; `meta.matched_prompts` of
the retrieval branch is likewise omitted (no claim reads it). -/
structure Payload where
  ok : Bool
  answer : String
  tools : List (String × JVal)
  mode : String

/-- One entry of an insertion-ordered cache (`Map` iteration order):
key, write time, value. -/
abbrev CacheList (α : Type) : Type := List (String × Nat × α)

/-- `Map.set`: update in place when the key exists (its position is kept),
else append. -/
def cacheSetEntry {α : Type} (c : CacheList α) (key : String) (ts : Nat)
    (v : α) : CacheList α :=
  if c.any (fun e => e.1 = key) then
    c.map (fun e => if e.1 = key then (key, ts, v) else e)
  else c ++ [(key, ts, v)]

/-- `Map.delete` of one key. -/
def cacheDelete {α : Type} (c : CacheList α) (key : String) : CacheList α :=
  c.filter (fun e => e.1 != key)

/-- `setCachedResponse` / the retrieval cache write: set, then evict the
oldest entry when the size bound is exceeded. -/
def cacheSetBounded {α : Type} (c : CacheList α) (key : String) (ts : Nat)
    (v : α) (bound : Nat) : CacheList α :=
  let c2 := cacheSetEntry c key ts v
  if bound < c2.length then c2.drop 1 else c2

/-- `getCachedResponse`-style lookup: `none` plus an unchanged cache when
the key is absent; the value when fresh; `none` plus the entry deleted
when its age reached the TTL. -/
def cacheLookup {α : Type} (c : CacheList α) (key : String) (now ttl : Nat) :
    Option α × CacheList α :=
  match c.find? (fun e => e.1 = key) with
  | none => (none, c)
  | some e =>
    if ttl <= now - e.2.1 then (none, cacheDelete c key)
    else (some e.2.2, c)

/-- The outcome of one tool execution as the route can observe it: the
resolved value of `runToolByName`, or a thrown error message. -/
inductive ToolOutcome where
  | ok (v : JVal)
  | thrown (e : String)

/-- The chat route's environment for one request: everything outside the
routing logic itself.  `providerAnswer` is what `answerFromAnyProvider`
resolves to (`none` when no provider is configured or all fail, else the
answer and its `mode` string); `geminiKey`/`geminiAnswer` and the Claude
pair model the dedicated fallback calls; `monthProgress` is
`getMonthProgress` (day of month, days in month). -/
structure ChatEnv where
  runTool : String → JVal → ToolOutcome
  providerAnswer : Option (String × String)
  geminiKey : Bool
  geminiAnswer : Option String
  claudeKey : Bool
  claudeAnswer : Option String
  corpus : List PromptDoc
  monthProgress : Nat × Nat
  nowIso : String
  now : Nat

/-- The shared mutable state across requests: the two caches. -/
structure ChatState where
  respCache : CacheList Payload
  retrCache : CacheList RelatedResult

/-- The observable result of one request: a JSON response, a 400 for an
invalid body, or the error path (`next(err)`) when an un-caught tool
throw escapes. -/
inductive ChatOut where
  | ok (p : Payload) (s : ChatState)
  | badRequest
  | fail (e : String) (s : ChatState)

/-- Empty tool arguments, `{}`. -/
def emptyArgs : JVal := .obj []

/-- The `{ ok: false, error }` placeholder the comparison branch records
for a tool whose execution threw. -/
def thrownPlaceholder (e : String) : JVal :=
  .obj [("ok", .bool false), ("error", .str e)]

/-- Run the comparison bundle, isolating per-tool failures (the
`try/catch` inside the comparison loop). -/
def runToolsCaught (env : ChatEnv) (names : List String) :
    List (String × JVal) :=
  names.map (fun t =>
    (t, match env.runTool t emptyArgs with
        | .ok r => r
        | .thrown e => thrownPlaceholder e))

/-- Run a fixed tool list sequentially with no catch (the advisory and
retrieval branches): the first throw aborts the request. -/
def runToolsSeq (env : ChatEnv) : List String →
    Except String (List (String × JVal))
  | [] => .ok []
  | t :: ts =>
    match env.runTool t emptyArgs with
    | .thrown e => .error e
    | .ok r =>
      match runToolsSeq env ts with
      | .error e => .error e
      | .ok rest => .ok ((t, r) :: rest)

/-- `retrieveRelatedPromptsAndTools` with its cache: a fresh cached value
is returned as is (a stale entry is ignored, not deleted — unlike the
response cache); a fresh result is cached under the normalized text
(10-minute TTL, 5000 entries, oldest evicted); an empty token list
short-circuits without caching. -/
noncomputable def retrieveRelated (env : ChatEnv)
    (cache : CacheList RelatedResult)
    (message : String) : RelatedResult × CacheList RelatedResult :=
  let normalized := normalizeMessage message
  let hit := match cache.find? (fun e => e.1 = normalized) with
    | some e =>
      if env.now - e.2.1 < PROMPT_RETRIEVAL_TTL_MS then some e.2.2 else none
    | none => none
  match hit with
  | some v => (v, cache)
  | none =>
    if (dedupFirst (tokenize normalized)).isEmpty then
      ({ matchedPrompts := [], tools := [] }, cache)
    else
      let value := retrievePure env.corpus message
      (value, cacheSetBounded cache normalized env.now value
        MAX_PROMPT_RETRIEVAL_CACHE)

/-- `/^run\s+/i`: the response-cache guard of the route. -/
def runPrefixTest (s : String) : Bool :=
  match s.data with
  | r :: u :: n :: c :: _ =>
    r.toLower = 'r' && u.toLower = 'u' && n.toLower = 'n' && c.isWhitespace
  | _ => false

/-- `/^run\s+([a-zA-Z0-9_]+)\s*$/i`: the explicit run command, returning
the tool-name capture (its case preserved). -/
def parseRunCommand (s : String) : Option String :=
  match s.data with
  | r :: u :: n :: rest =>
    if r.toLower = 'r' && u.toLower = 'u' && n.toLower = 'n' then
      match rest with
      | c :: rest2 =>
        if c.isWhitespace then
          let afterWs := rest2.dropWhile Char.isWhitespace
          let name := afterWs.takeWhile wordChar
          let tail := afterWs.dropWhile wordChar
          if name.isEmpty || !(tail.all Char.isWhitespace) then none
          else some (String.mk name)
        else none
      | [] => none
    else none
  | _ => none

/-- `parseRequestedHours`: the hour capture, kept when in `(0, 48]`. -/
def parseRequestedHours (message : String) : Option Rat :=
  match hoursScan (lowerStr message).data with
  | none => none
  | some h => if 0 < h && h <= 48 then some h else none

/-- A nonzero decimal digit, `[1-9]`. -/
def nonZeroDigit (c : Char) : Bool := c.isDigit && c != '0'

/-- `\d+\b` after the decimal point: at least one digit, then a non-word
position (digits are word characters, so the greedy run must end at a
non-word neighbour). -/
def fracOkRB (r : List Char) : Bool :=
  match r with
  | c :: rest =>
    c.isDigit && !(wordOpt ((rest.dropWhile Char.isDigit).head?))
  | [] => false

/-- One alternative of `/\b(19[0-9]\.\d+|[1-9]\d?\.\d+)\b/` matching at
this position (the left boundary is checked by the caller). -/
def cplTokenAt (l : List Char) : Bool :=
  (match l with
   | '1' :: '9' :: d :: '.' :: r => d.isDigit && fracOkRB r
   | _ => false) ||
  (match l with
   | a :: d :: '.' :: r => nonZeroDigit a && d.isDigit && fracOkRB r
   | _ => false) ||
  (match l with
   | a :: '.' :: r => nonZeroDigit a && fracOkRB r
   | _ => false)

/-- Scan for a decimal-looking token with a left word boundary. -/
def cplNumScanAux : Option Char → List Char → Bool
  | _, [] => false
  | prev, c :: rest =>
    (!wordOpt prev && cplTokenAt (c :: rest)) || cplNumScanAux (some c) rest

/-- `/\b(19[0-9]\.\d+|[1-9]\d?\.\d+)\b/.test`: the CPL-disambiguation
heuristic of the hours branch. -/
def maybeCplNumber (s : String) : Bool := cplNumScanAux none s.data

/-- `x.toFixed(2)` re-read as a number: round to 2 decimals, ties toward
the larger value (`NaN` stays `NaN`). -/
def toFixed2 : Option Rat → Option Rat
  | some q => some (((q * 100 + 1 / 2).floor : Rat) / 100)
  | none => none

/-- Build the success payload of a branch and cache it under the request
key (`setCachedResponse` runs on every branch below; the run and cache-hit
branches, which do not cache, are handled in `handleChatMessage` and
`chatStage2`). -/
def finishCached (env : ChatEnv) (st : ChatState) (key answer : String)
    (tools : List (String × JVal)) (mode : String) : ChatOut :=
  let payload : Payload :=
    { ok := true, answer := answer, tools := tools, mode := mode }
  .ok payload
    { st with
      respCache :=
        cacheSetBounded st.respCache key env.now payload MAX_RESPONSE_CACHE }

/-- The per-request context: the trimmed message and its normalization
(the response-cache key). -/
structure ReqCtx where
  userMessage : String
  normalized : String

/-- Stage 19 (`no-match`): the universal fallback, always succeeds. -/
def chatStage19 (env : ChatEnv) (st : ChatState) (ctx : ReqCtx) : ChatOut :=
  finishCached env st ctx.normalized
    (fallbackUniversalAnswer ctx.userMessage) [] "no-match"

/-- Stage 18 (`marketing-default-bundle`): the default tool bundle with
advisory prose for marketing-related text. -/
def chatStage18 (env : ChatEnv) (st : ChatState) (ctx : ReqCtx) : ChatOut :=
  if isMarketingIntent ctx.normalized then
    match runToolsSeq env (defaultToolBundleForMessage ctx.normalized) with
    | .error e => .fail e st
    | .ok trs =>
      finishCached env st ctx.normalized
        (joinLines (buildAdvisorLines ctx.normalized trs)) trs
        "marketing-default-bundle"
  else chatStage19 env st ctx

/-- Stage 17 (`gemini-fallback`, late): Gemini for anything still
unmatched. -/
def chatStage17 (env : ChatEnv) (st : ChatState) (ctx : ReqCtx) : ChatOut :=
  match (if env.geminiKey then env.geminiAnswer else none) with
  | some a => finishCached env st ctx.normalized a [] "gemini-fallback"
  | none => chatStage18 env st ctx

/-- Stage 16 (`prompt-retrieval-multi-tool`): the retrieval-augmented
fallback; its cache write survives even when a tool throw aborts the
request. -/
noncomputable def chatStage16 (env : ChatEnv) (st : ChatState) (ctx : ReqCtx) : ChatOut :=
  let rr := retrieveRelated env st.retrCache ctx.normalized
  let st2 : ChatState := { st with retrCache := rr.2 }
  if !rr.1.tools.isEmpty then
    match runToolsSeq env rr.1.tools with
    | .error e => .fail e st2
    | .ok trs =>
      finishCached env st2 ctx.normalized
        (joinLines (buildAdvisorLines ctx.normalized trs)) trs
        "prompt-retrieval-multi-tool"
  else chatStage17 env st2 ctx

/-- Stage 15: the non-marketing direct provider fallbacks
(`gemini-fallback`, `claude-fallback`, `general-ai-unavailable`). -/
noncomputable def chatStage15 (env : ChatEnv) (st : ChatState) (ctx : ReqCtx) : ChatOut :=
  if !(isMarketingIntent ctx.normalized) then
    match (if env.geminiKey then env.geminiAnswer else none) with
    | some a => finishCached env st ctx.normalized a [] "gemini-fallback"
    | none =>
      match (if env.claudeKey then env.claudeAnswer else none) with
      | some a => finishCached env st ctx.normalized a [] "claude-fallback"
      | none =>
        if env.geminiKey || env.claudeKey then
          finishCached env st ctx.normalized
            ("General AI fallback is temporarily unavailable due to " ++
             "provider quota/rate limit or key configuration. " ++
             "Please retry shortly, or ask a marketing/Meta/GA4 question " ++
             "for tool-based answers right now.") []
            "general-ai-unavailable"
        else chatStage16 env st ctx
  else chatStage16 env st ctx

/-- Stage 14 (`tool-mapping`): the deterministic keyword-to-tool table,
with the worst-campaign phrasing for poor-performance questions. -/
noncomputable def chatStage14 (env : ChatEnv) (st : ChatState) (ctx : ReqCtx) : ChatOut :=
  match mapMessageToTool ctx.normalized with
  | some tool =>
    match env.runTool tool emptyArgs with
    | .thrown e => .fail e st
    | .ok r =>
      let answer :=
        if tool = "get_meta_best_campaign" &&
            isPoorPerformanceIntent ctx.normalized then
          formatWorstCampaignAnswer r
        else formatToolAnswer tool r
      finishCached env st ctx.normalized answer [(tool, r)] "tool-mapping"
  | none => chatStage15 env st ctx

/-- Stage 13 (`tool-mapping-hours-estimate`): the hour run-rate
projection with the CPL disambiguation note. -/
noncomputable def chatStage13 (env : ChatEnv) (st : ChatState) (ctx : ReqCtx) : ChatOut :=
  match parseRequestedHours ctx.normalized, hasSpendIntent ctx.normalized with
  | some hours, true =>
    match env.runTool "get_meta_spend_today" emptyArgs with
    | .thrown e => .fail e st
    | .ok r =>
      let todaySpend := chainNumZero r "spend"
      let currency := jStrOr (chainField r "currency") "INR"
      let estimate := toFixed2 (todaySpend.map (fun s => s / 24 * hours))
      let maybeCpl := reTest [.wb, kw "cpl", .wb] ctx.normalized ||
        maybeCplNumber ctx.normalized
      let note := if maybeCpl then
        " Also, the number you mentioned may be CPL (cost per lead), " ++
          "which is different from spend."
        else ""
      finishCached env st ctx.normalized
        ("Estimated Meta spend for " ++ ratDisp hours ++ " hour(s) is " ++
          formatCurrency estimate currency ++
          " based on today\x27s run-rate." ++ note)
        [("get_meta_spend_today", r)] "tool-mapping-hours-estimate"
  | _, _ => chatStage14 env st ctx

/-- Stage 12 (`tool-mapping-days-estimate`): the day run-rate
projection. -/
noncomputable def chatStage12 (env : ChatEnv) (st : ChatState) (ctx : ReqCtx) : ChatOut :=
  match parseRequestedDays ctx.normalized, hasSpendIntent ctx.normalized with
  | some days, true =>
    match env.runTool "get_meta_spend_today" emptyArgs with
    | .thrown e => .fail e st
    | .ok r =>
      let todaySpend := chainNumZero r "spend"
      let currency := jStrOr (chainField r "currency") "INR"
      let estimate := toFixed2 (todaySpend.map (fun s => s * days))
      finishCached env st ctx.normalized
        ("Estimated Meta ad spend for " ++ toString days ++ " days is " ++
          formatCurrency estimate currency ++
          " (based on today\x27s spend run-rate).")
        [("get_meta_spend_today", r)] "tool-mapping-days-estimate"
  | _, _ => chatStage13 env st ctx

/-- Stage 11 (`tool-mapping-month-priority`): monthly spend before the
generic mapping. -/
noncomputable def chatStage11 (env : ChatEnv) (st : ChatState) (ctx : ReqCtx) : ChatOut :=
  if hasSpendIntent ctx.normalized && monthWordTest ctx.normalized then
    match env.runTool "get_meta_spend_month" emptyArgs with
    | .thrown e => .fail e st
    | .ok r =>
      finishCached env st ctx.normalized
        (formatToolAnswer "get_meta_spend_month" r)
        [("get_meta_spend_month", r)] "tool-mapping-month-priority"
  else chatStage12 env st ctx

/-- Stage 10: the priority provider router (`answerFromAnyProvider`). -/
noncomputable def chatStage10 (env : ChatEnv) (st : ChatState) (ctx : ReqCtx) : ChatOut :=
  match env.providerAnswer with
  | some am => finishCached env st ctx.normalized am.1 [] am.2
  | none => chatStage11 env st ctx

/-- Stage 9 (`budget-waste-action-plan`). -/
noncomputable def chatStage9 (env : ChatEnv) (st : ChatState) (ctx : ReqCtx) : ChatOut :=
  if isBudgetWasteIntent ctx.normalized then
    match runToolsSeq env ["get_meta_spend_today", "get_meta_best_campaign"]
      with
    | .error e => .fail e st
    | .ok trs =>
      finishCached env st ctx.normalized
        (joinLines (buildBudgetWasteLines trs)) trs
        "budget-waste-action-plan"
  else chatStage10 env st ctx

/-- Stage 8 (`reduce-cpl-action-plan`). -/
noncomputable def chatStage8 (env : ChatEnv) (st : ChatState) (ctx : ReqCtx) : ChatOut :=
  if isReduceCplIntent ctx.normalized then
    match runToolsSeq env ["get_meta_leads_today", "get_meta_spend_today",
      "get_meta_best_campaign"] with
    | .error e => .fail e st
    | .ok trs =>
      finishCached env st ctx.normalized
        (joinLines (buildReduceCplLines trs)) trs "reduce-cpl-action-plan"
  else chatStage9 env st ctx

/-- Stage 7 (`lead-quality-action-plan`). -/
noncomputable def chatStage7 (env : ChatEnv) (st : ChatState) (ctx : ReqCtx) : ChatOut :=
  if isLeadQualityActionsIntent ctx.normalized then
    match runToolsSeq env ["get_meta_leads_today", "get_meta_spend_today",
      "get_meta_best_campaign"] with
    | .error e => .fail e st
    | .ok trs =>
      finishCached env st ctx.normalized
        (joinLines (buildLeadQualityActionsLines trs)) trs
        "lead-quality-action-plan"
  else chatStage8 env st ctx

/-- Stage 6 (`tool-mapping-ga4-weekly-priority`). -/
noncomputable def chatStage6 (env : ChatEnv) (st : ChatState) (ctx : ReqCtx) : ChatOut :=
  if ga4WeeklyBranch ctx.normalized then
    match env.runTool "get_ga4_active_users_last_7_days" emptyArgs with
    | .thrown e => .fail e st
    | .ok r =>
      finishCached env st ctx.normalized
        (formatToolAnswer "get_ga4_active_users_last_7_days" r)
        [("get_ga4_active_users_last_7_days", r)]
        "tool-mapping-ga4-weekly-priority"
  else chatStage7 env st ctx

/-- Stage 5 (`tool-mapping-best-instagram-reel-<period>`). -/
noncomputable def chatStage5 (env : ChatEnv) (st : ChatState) (ctx : ReqCtx) : ChatOut :=
  if bestReelBranch ctx.normalized then
    let period := detectBestCampaignPeriod ctx.normalized
    match env.runTool "get_instagram_best_reel"
      (.obj [("period", .str period)]) with
    | .thrown e => .fail e st
    | .ok r =>
      finishCached env st ctx.normalized
        (formatToolAnswer "get_instagram_best_reel" r)
        [("get_instagram_best_reel", r)]
        ("tool-mapping-best-instagram-reel-" ++ period)
  else chatStage6 env st ctx

/-- Stage 4 (`tool-mapping-best-campaign-<period>`). -/
noncomputable def chatStage4 (env : ChatEnv) (st : ChatState) (ctx : ReqCtx) : ChatOut :=
  if bestCampaignBranch ctx.normalized then
    let period := detectBestCampaignPeriod ctx.normalized
    match env.runTool "get_meta_best_campaign"
      (.obj [("period", .str period)]) with
    | .thrown e => .fail e st
    | .ok r =>
      finishCached env st ctx.normalized
        (formatToolAnswer "get_meta_best_campaign" r)
        [("get_meta_best_campaign", r)]
        ("tool-mapping-best-campaign-" ++ period)
  else chatStage5 env st ctx

/-- Stage 3 (`comparison-table`): the comparison-first path with per-tool
failure isolation. -/
noncomputable def chatStage3 (env : ChatEnv) (st : ChatState) (ctx : ReqCtx) : ChatOut :=
  if isComparisonIntent ctx.normalized then
    let trs := runToolsCaught env (comparisonToolsForMessage ctx.normalized)
    finishCached env st ctx.normalized
      (buildComparisonTableAnswer env.monthProgress env.nowIso
        ctx.userMessage trs) trs "comparison-table"
  else chatStage4 env st ctx

/-- Stage 2 (`direct-tool`): the explicit `run <tool>` command; its
response is not cached. -/
noncomputable def chatStage2 (env : ChatEnv) (st : ChatState) (ctx : ReqCtx) : ChatOut :=
  match parseRunCommand ctx.userMessage with
  | some tool =>
    match env.runTool tool emptyArgs with
    | .thrown e => .fail e st
    | .ok r =>
      .ok
        { ok := true, answer := formatToolAnswer tool r,
          tools := [(tool, r)], mode := "direct-tool" } st
  | none => chatStage3 env st ctx

/-- `handleChatMessage`: body validation, the guarded response-cache read
(skipped for run commands and comparisons; an expired entry is deleted on
lookup), then the branch chain. -/
noncomputable def handleChatMessage (env : ChatEnv) (st : ChatState)
    (message : String) :
    ChatOut :=
  if message.length = 0 then .badRequest
  else
    let userMessage := strTrim message
    let normalized := normalizeMessage userMessage
    let ctx : ReqCtx :=
      { userMessage := userMessage, normalized := normalized }
    if runPrefixTest userMessage || isComparisonIntent normalized then
      chatStage2 env st ctx
    else
      match cacheLookup st.respCache normalized env.now
        RESPONSE_CACHE_TTL_MS with
      | (some p, c2) =>
        .ok
          { p with
            mode :=
              (if p.mode = "" then "cached" else p.mode) ++ "-cache-hit" }
          { st with respCache := c2 }
      | (none, c2) => chatStage2 env { st with respCache := c2 } ctx

/-! ## Meta best-campaign leaderboard (`metaApi.ts`) -/

/-- One campaign row of `getMetaBestCampaign` (`MetaBestCampaignRow`):
`cpc`/`cpl` are `null` when Meta reports none (non-positive values are
already normalized to `null` by the row parser). -/
structure MetaBestCampaignRow where
  campaign_id : String
  campaign_name : String
  leads : Rat
  spend : Rat
  cpc : Option Rat
  cpl : Option Rat
  deriving Repr, DecidableEq

/-- `a.cpc ?? Infinity < b.cpc ?? Infinity`: a missing CPC compares as
positive infinity (sorts last). -/
def cpcLtInf : Option Rat → Option Rat → Bool
  | some x, some y => decide (x < y)
  | some _, none => true
  | none, _ => false

/-- Equality of the CPC keys under the same `?? Infinity` reading. -/
def cpcEqInf : Option Rat → Option Rat → Bool
  | some x, some y => decide (x = y)
  | none, none => true
  | _, _ => false

/-- The sort comparator of `getMetaBestCampaign` as a `≤` test
(`comparator(a, b) <= 0`): leads descending, then CPC ascending with
`null` last, then spend descending. -/
def campaignLE (a b : MetaBestCampaignRow) : Bool :=
  if a.leads != b.leads then decide (b.leads < a.leads)
  else if !(cpcEqInf a.cpc b.cpc) then cpcLtInf a.cpc b.cpc
  else decide (b.spend <= a.spend)

/-- `parsed.sort(...)` of `getMetaBestCampaign`. -/
def sortCampaignRows (rows : List MetaBestCampaignRow) :
    List MetaBestCampaignRow :=
  rows.insertionSort (fun a b => campaignLE a b = true)

/-- `best`: the head of the sorted leaderboard. -/
def bestCampaign (rows : List MetaBestCampaignRow) :
    Option MetaBestCampaignRow :=
  (sortCampaignRows rows).head?

/-- `top`: the first ten rows of the sorted leaderboard. -/
def topCampaigns (rows : List MetaBestCampaignRow) :
    List MetaBestCampaignRow :=
  (sortCampaignRows rows).take 10

/-! ## Tool registry (`toolIntegration.ts`) -/

/-- The registered tool names (`toolDefs`), in registration order. -/
def toolDefNames : List String :=
  [ "get_meta_spend_today", "get_meta_spend_month", "get_meta_spend_last_7d",
    "get_meta_leads_today", "get_meta_leads_last_30d",
    "get_meta_leads_last_7d", "get_meta_ads_running_today",
    "get_meta_best_campaign", "get_instagram_account_overview",
    "get_instagram_reels_today", "get_instagram_reels_month",
    "get_instagram_best_reel", "get_ga4_active_users_today",
    "get_ga4_active_users_yesterday", "get_ga4_active_users_last_7_days",
    "get_ga4_active_users_last_15_days", "get_ga4_active_users_last_30_days",
    "get_ga4_sessions_today", "get_ga4_sessions_yesterday",
    "get_ga4_sessions_month", "get_ga4_sessions_last_7_days",
    "get_ga4_sessions_last_15_days", "get_ga4_sessions_last_30_days",
    "get_ga4_top_pages_today", "get_ga4_page_views_today",
    "get_ga4_page_views_yesterday", "get_ga4_page_views_last_7_days",
    "get_ga4_page_views_last_15_days", "get_ga4_page_views_last_30_days",
    "get_ga4_top_city_today", "get_ga4_top_city_yesterday",
    "get_ga4_top_city_last_7_days", "get_ga4_top_city_last_15_days",
    "get_ga4_top_city_last_30_days", "get_ga4_report_snapshot",
    "get_ga4_active_users_by_city", "get_ga4_sessions_by_source_medium",
    "get_ga4_top_pages_screens" ]

/-- `ToolRunContext` (the `role` field is not read by `runToolByName`). -/
structure ToolRunContext where
  metaAccountId : Option String

/-- `String.prototype.startsWith`. -/
def strPrefix (p s : String) : Bool := p.data.isPrefixOf s.data

/-- The tenant-scoped tool families:
`get_meta_` / `get_instagram_` / `get_ga4_` names. -/
def accountScopedTool (name : String) : Bool :=
  strPrefix "get_meta_" name || strPrefix "get_instagram_" name ||
    strPrefix "get_ga4_" name

/-- Field read on a spread field list. -/
def getFieldJ (fields : List (String × JVal)) (k : String) : JVal :=
  match fields.find? (fun e => e.1 = k) with
  | some e => e.2
  | none => .undefined

/-- Field assignment `o[k] = v` (objects carry each key once). -/
def setFieldJ (fields : List (String × JVal)) (k : String) (v : JVal) :
    List (String × JVal) :=
  if fields.any (fun e => e.1 = k) then
    fields.map (fun e => if e.1 = k then (k, v) else e)
  else fields ++ [(k, v)]

/-- `{...v}`: the own enumerable fields of a value (an array spreads its
indices as string keys; primitives spread nothing — the only primitives
reaching this point are falsy, since truthy non-objects were rejected). -/
def spreadArgs : JVal → List (String × JVal)
  | .obj fs => fs
  | .arr l => l.enum.map (fun e => (toString e.1, e.2))
  | _ => []

/-- `runToolByName`: unknown-name and invalid-args guards, then the
tenant `account_id` injection, then the registered handler (abstracted as
`handlers`, since every registered handler is a network-backed
`callToolWithFallback` closure). -/
def runToolByName (handlers : String → List (String × JVal) → JVal)
    (name : String) (args : JVal) (context : ToolRunContext) : JVal :=
  if !(toolDefNames.contains name) then
    .obj [("ok", .bool false), ("tool", .str name),
      ("error", .str "Unknown tool")]
  else if args.truthy && !args.isObjType then
    .obj [("ok", .bool false), ("tool", .str name),
      ("error", .str "Invalid tool arguments")]
  else
    let base := if args.truthy then spreadArgs args else []
    let finalArgs := match context.metaAccountId with
      | some aid =>
        if aid != "" && !(getFieldJ base "account_id").truthy &&
            accountScopedTool name then
          setFieldJ base "account_id" (.str aid)
        else base
      | none => base
    handlers name finalArgs

/-! ## Observations and concrete instances used by the theorems -/

/-- Does a display line look like a numbered action item (`digits`, a dot,
a space — the shape of the template actions `1. `..`3. `)? -/
def startsNumbered (l : String) : Bool :=
  match l.data with
  | c :: rest =>
    c.isDigit &&
      (match rest.dropWhile Char.isDigit with
       | '.' :: ' ' :: _ => true
       | _ => false)
  | [] => false

/-- How many recommended-action lines an advisory answer carries. -/
def countActionLines (lines : List String) : Nat :=
  (lines.filter startsNumbered).length

/-- The keys of a cache are pairwise distinct (a `Map` invariant). -/
def cacheKeysNodup {α : Type} (c : CacheList α) : Prop :=
  (c.map (fun e => e.1)).Nodup

/-- The `meta.mode` of a response, when one was produced. -/
def chatMode : ChatOut → Option String
  | .ok p _ => some p.mode
  | _ => none

/-- The `answer` of a response, when one was produced. -/
def chatAnswer : ChatOut → Option String
  | .ok p _ => some p.answer
  | _ => none

/-- The `tools` array of a response (empty otherwise). -/
def chatTools : ChatOut → List (String × JVal)
  | .ok p _ => p.tools
  | _ => []

/-- The markdown header row of the comparison table. -/
def comparisonHeaderRow : String :=
  "| Metric | Current | Baseline | Delta | Insight |"

/-- A concrete spend-today tool result used by witnesses. -/
def wSpendToday : JVal :=
  .obj [("spend", .num 1000), ("currency", .str "INR"),
    ("as_of_ist", .str "2026-01-01T00:00:00Z")]

/-- A concrete, deterministic witness environment: no provider configured,
every tool except `boom` succeeds. -/
def wEnv : ChatEnv :=
  { runTool := fun n _ =>
      if n = "boom" then .thrown "kaput"
      else if n = "get_meta_spend_today" then .ok wSpendToday
      else if n = "get_meta_spend_month" then .ok (.obj [("spend", .num 9000)])
      else .ok (.obj [("tool", .str n)]),
    providerAnswer := none, geminiKey := false, geminiAnswer := none,
    claudeKey := false, claudeAnswer := none, corpus := [],
    monthProgress := (10, 30), nowIso := "2026-01-01T00:00:00Z", now := 0 }

/-- A witness environment whose spend-today tool throws while the other
comparison tools succeed (for the per-tool isolation witness). -/
def wEnvHalfDown : ChatEnv :=
  { wEnv with runTool := fun n _ =>
      if n = "get_meta_spend_today" then .thrown "network down"
      else .ok (.obj [("spend", .num 9000)]) }

/-- Empty caches. -/
def wState : ChatState := { respCache := [], retrCache := [] }

/-- The three campaigns of the tie-break law:
`[{leads:10,cpc:2},{leads:10,cpc:1},{leads:5,cpc:0.5}]`. -/
def rowCpc2 : MetaBestCampaignRow :=
  { campaign_id := "c1", campaign_name := "A", leads := 10, spend := 0,
    cpc := some 2, cpl := none }

/-- The `cpc:1` campaign (the expected best). -/
def rowCpc1 : MetaBestCampaignRow :=
  { campaign_id := "c2", campaign_name := "B", leads := 10, spend := 0,
    cpc := some 1, cpl := none }

/-- The `leads:5, cpc:0.5` campaign. -/
def rowCpcHalf : MetaBestCampaignRow :=
  { campaign_id := "c3", campaign_name := "C", leads := 5, spend := 0,
    cpc := some (1 / 2), cpl := none }

/-- A registry handler that ignores its input (shows a handler ran). -/
def hConst : String → List (String × JVal) → JVal :=
  fun _ _ => .str "HANDLED"

/-- A registry handler that echoes the `account_id` it receives. -/
def hEcho : String → List (String × JVal) → JVal :=
  fun _ a => getFieldJ a "account_id"

/-- A tiny corpus for the retrieval witness. -/
def wCorpus : List PromptDoc :=
  [ { text := "meta spend today", tokens := ["meta", "spend", "today"] },
    { text := "ga4 sessions today", tokens := ["ga4", "sessions", "today"] } ]

/-- The best-campaign name `buildReduceCplAnswer` interpolates. -/
def rcBestName (trs : List (String × JVal)) : String :=
  jStrOr (chainField (chainField (lookupTool trs "get_meta_best_campaign")
    "best") "campaign_name") "Best campaign"

/-- The worst-campaign name `buildReduceCplAnswer` interpolates (the last
row of the leaderboard). -/
def rcWorstName (trs : List (String × JVal)) : String :=
  jStrOr (chainField
    (match ((chainField (lookupTool trs "get_meta_best_campaign")
      "top").arrElems).getLast? with
     | some v => v
     | none => .null) "campaign_name") "Weak campaign"

/-- The optional CPL note of the first lead-quality action. -/
def lqCplNote (trs : List (String × JVal)) : String :=
  match chainNumZero (chainField (lookupTool trs "get_meta_best_campaign")
    "best") "cpl" with
  | some b =>
    if b > 0 then " (CPL " ++ formatCurrency (some b) "INR" ++ ")" else ""
  | none => ""

/-- The CPC sort key as an element of `WithTop Rat`: `null` reads as
`Infinity`. -/
def cpcK : Option Rat → WithTop Rat
  | some x => (x : WithTop Rat)
  | none => ⊤

/-- The response the pipeline produces for `"spend today"` in `wEnv`. -/
def wPayload : Payload :=
  { ok := true, answer := "Your Meta spend today is INR 1000.",
    tools := [("get_meta_spend_today", wSpendToday)], mode := "tool-mapping" }

/-- The cache state after that first `"spend today"` request. -/
def wState2 : ChatState :=
  { respCache := [("spend today", 0, wPayload)], retrCache := [] }

/-- An environment whose every tool resolves to `{}` (no campaign data). -/
def wEnvNoData : ChatEnv := { wEnv with runTool := fun _ _ => .ok (.obj []) }

/-- An environment with every LLM provider configured and answering (for
the bypass witnesses). -/
def wEnvLLM : ChatEnv :=
  { wEnv with
    providerAnswer := some ("LLM answer", "llm-priority"),
    geminiKey := true, geminiAnswer := some "Gemini answer",
    claudeKey := true, claudeAnswer := some "Claude answer" }

/-! # Theorems

Support lemmas first, then one theorem per claim (with its witness or
counterexample where the claim calls for one). -/

theorem isPrefixOf_append_self (sub post : List Char) :
    sub.isPrefixOf (sub ++ post) = true := by
  induction sub with
  | nil => cases post <;> rfl
  | cons c r ih => simp [List.isPrefixOf, ih]

theorem listInfix_self (sub post : List Char) :
    listInfix sub (sub ++ post) = true := by
  cases sub with
  | nil => cases post <;> simp [listInfix, List.isPrefixOf]
  | cons c r => simp [listInfix, isPrefixOf_append_self]

theorem listInfix_skip (sub pre l : List Char)
    (h : listInfix sub l = true) : listInfix sub (pre ++ l) = true := by
  induction pre with
  | nil => simpa using h
  | cons c r ih => simp [listInfix, ih]

theorem substr_decomp (m sub : String) (pre post : List Char)
    (h : m.data = pre ++ (sub.data ++ post)) : substr m sub = true := by
  unfold substr
  rw [h]
  exact listInfix_skip _ _ _ (listInfix_self _ _)

theorem joinLines_cons_cons (a b : String) (l : List String) :
    joinLines (a :: b :: l) = a ++ "\n" ++ joinLines (b :: l) := rfl

/-! ## C9: the normalizer and idempotence -/

/-- C9: the claim states `normalize(normalize(x)) = normalize(x)` for all
`x`.  The code violates it: whitespace collapsing runs after the
misspelling rewrites, so a pattern split by two spaces (here `"ga  4"`) is
only rewritten by the second application.  The spec lists idempotence as a
testable law, so this is recorded as a code bug; this theorem evaluates
the normalizer at the failing input. -/
theorem normalizeMessage_not_idempotent :
    normalizeMessage "ga  4" = "ga 4" ∧
      normalizeMessage (normalizeMessage "ga  4") = "ga4" ∧
      normalizeMessage (normalizeMessage "ga  4") ≠
        normalizeMessage "ga  4" := by
  refine ⟨rfl, rfl, ?_⟩
  decide

/-! ## C1: the best-campaign leaderboard order -/

theorem cpcEqInf_symm (x y : Option Rat) : cpcEqInf x y = cpcEqInf y x := by
  cases x <;> cases y <;> simp [cpcEqInf, eq_comm]

theorem cpc_lt_or_gt {x y : Option Rat} (h : cpcEqInf x y = false) :
    cpcLtInf x y = true ∨ cpcLtInf y x = true := by
  cases x with
  | none =>
    cases y with
    | none => simp [cpcEqInf] at h
    | some b => right; rfl
  | some a =>
    cases y with
    | none => left; rfl
    | some b =>
      have hne : a ≠ b := by simpa [cpcEqInf] using h
      rcases lt_or_gt_of_ne hne with hl | hl
      · left; simp [cpcLtInf, hl]
      · right; simp [cpcLtInf, hl]

/-- `campaignLE` as a proposition: the lexicographic order of the
comparator. -/
theorem campaignLE_iff (a b : MetaBestCampaignRow) :
    campaignLE a b = true ↔
      b.leads < a.leads ∨
        (a.leads = b.leads ∧
          ((cpcEqInf a.cpc b.cpc = false ∧ cpcLtInf a.cpc b.cpc = true) ∨
            (cpcEqInf a.cpc b.cpc = true ∧ b.spend <= a.spend))) := by
  unfold campaignLE
  by_cases h1 : a.leads = b.leads
  · have hb : (a.leads != b.leads) = false := by simp [bne_iff_ne, h1]
    have hnlt : ¬ b.leads < a.leads := by rw [h1]; exact lt_irrefl _
    rw [hb]
    cases h2 : cpcEqInf a.cpc b.cpc <;> simp [h1, h2, hnlt]
  · have hb : (a.leads != b.leads) = true := by simp [bne_iff_ne, h1]
    rw [hb]
    simp [h1]

/-! ## Substring support -/

theorem isPrefixOf_extend (sub l post : List Char)
    (h : sub.isPrefixOf l = true) : sub.isPrefixOf (l ++ post) = true := by
  induction sub generalizing l with
  | nil =>
    cases l with
    | nil => cases post <;> rfl
    | cons c t => rfl
  | cons c r ih =>
    cases l with
    | nil => simp [List.isPrefixOf] at h
    | cons d t =>
      simp only [List.isPrefixOf, Bool.and_eq_true] at h ⊢
      exact ⟨h.1, ih t h.2⟩

theorem listInfix_extend (sub l post : List Char)
    (h : listInfix sub l = true) : listInfix sub (l ++ post) = true := by
  induction l with
  | nil =>
    cases post with
    | nil => simpa using h
    | cons c t =>
      simp only [listInfix] at h
      simp only [List.nil_append, listInfix]
      have : sub.isPrefixOf (c :: t) = true := by
        cases sub with
        | nil => rfl
        | cons a b => simp [List.isPrefixOf] at h
      simp [this]
  | cons c t ih =>
    simp only [listInfix, Bool.or_eq_true] at h
    rcases h with h | h
    · simp only [List.cons_append, listInfix, Bool.or_eq_true]
      exact Or.inl (isPrefixOf_extend _ _ _ h)
    · simp only [List.cons_append, listInfix, Bool.or_eq_true]
      exact Or.inr (ih h)

theorem substr_appL (s pre sub : String) (h : substr s sub = true) :
    substr (pre ++ s) sub = true := by
  unfold substr at h ⊢
  rw [String.data_append]
  exact listInfix_skip _ _ _ h

theorem substr_appR (s post sub : String) (h : substr s sub = true) :
    substr (s ++ post) sub = true := by
  unfold substr at h ⊢
  rw [String.data_append]
  exact listInfix_extend _ _ _ h

theorem substr_self_app (sub post : String) :
    substr (sub ++ post) sub = true := by
  unfold substr
  rw [String.data_append]
  exact listInfix_self _ _

/-! ## Run-command support -/

theorem parseRun_some_runPrefix (s : String) (t : String)
    (h : parseRunCommand s = some t) : runPrefixTest s = true := by
  unfold parseRunCommand at h
  unfold runPrefixTest
  rcases hs : s.data with _ | ⟨a, _ | ⟨b, _ | ⟨c, _ | ⟨d, rest⟩⟩⟩⟩ <;>
    rw [hs] at h
  · simp at h
  · simp at h
  · simp at h
  · by_cases habc : (decide (a.toLower = 'r') && decide (b.toLower = 'u') &&
        decide (c.toLower = 'n')) = true <;> simp [habc] at h
  · by_cases habc : (decide (a.toLower = 'r') && decide (b.toLower = 'u') &&
        decide (c.toLower = 'n')) = true
    · by_cases hd : d.isWhitespace = true
      · simp only [Bool.and_eq_true, decide_eq_true_eq] at habc
        simp [habc.1.1, habc.1.2, habc.2, hd]
      · simp [habc, hd] at h
    · simp [habc] at h

theorem runPrefix_false_parseRun_none (s : String)
    (h : runPrefixTest s = false) : parseRunCommand s = none := by
  cases hp : parseRunCommand s with
  | none => rfl
  | some t => rw [parseRun_some_runPrefix s t hp] at h; cases h

/-! ## Cache support -/

theorem cacheSetEntry_find {α : Type} (c : CacheList α) (key : String)
    (ts : Nat) (v : α) :
    (cacheSetEntry c key ts v).find? (fun e => e.1 = key) =
      some (key, ts, v) := by
  unfold cacheSetEntry
  by_cases hany : c.any (fun e => e.1 = key) = true
  · rw [if_pos hany]
    induction c with
    | nil => simp at hany
    | cons e t ih =>
      simp only [List.any_cons, Bool.or_eq_true] at hany
      by_cases he : e.1 = key
      · simp [List.find?, he]
      · have : (decide (e.1 = key)) = false := by simp [he]
        simp only [List.map_cons, if_neg he, List.find?, this]
        rcases hany with h1 | h2
        · simp [he] at h1
        · exact ih h2
  · rw [if_neg hany]
    have hnone : c.find? (fun e => e.1 = key) = none := by
      rw [List.find?_eq_none]
      intro x hx
      simp only [List.any_eq_true] at hany
      intro hkey
      exact hany ⟨x, hx, hkey⟩
    rw [List.find?_append, hnone]
    simp [List.find?]

theorem find_drop_none {α : Type} (c : CacheList α) (key : String)
    (h : c.find? (fun e => e.1 = key) = none) :
    (c.drop 1).find? (fun e => e.1 = key) = none := by
  rw [List.find?_eq_none] at h ⊢
  intro x hx
  exact h x (List.mem_of_mem_drop hx)

theorem cacheSetBounded_find {α : Type} (c : CacheList α) (key : String)
    (ts : Nat) (v : α) (bound : Nat) (hsz : c.length <= bound)
    (hb : 1 <= bound) :
    (cacheSetBounded c key ts v bound).find? (fun e => e.1 = key) =
      some (key, ts, v) := by
  unfold cacheSetBounded
  by_cases hdrop : bound < (cacheSetEntry c key ts v).length
  · rw [if_pos hdrop]
    unfold cacheSetEntry at hdrop ⊢
    by_cases hany : c.any (fun e => e.1 = key) = true
    · rw [if_pos hany] at hdrop
      rw [List.length_map] at hdrop
      omega
    · rw [if_neg hany] at hdrop ⊢
      have hnone : c.find? (fun e => e.1 = key) = none := by
        rw [List.find?_eq_none]
        intro x hx
        simp only [List.any_eq_true] at hany
        intro hkey
        exact hany ⟨x, hx, hkey⟩
      cases c with
      | nil => simp at hdrop; omega
      | cons e t =>
        simp only [List.cons_append, List.drop_succ_cons, List.drop_zero]
        rw [List.find?_append]
        have : t.find? (fun e => e.1 = key) = none := by
          rw [List.find?_eq_none] at hnone ⊢
          intro x hx
          exact hnone x (List.mem_cons_of_mem e hx)
        rw [this]
        simp [List.find?]
  · rw [if_neg hdrop]
    exact cacheSetEntry_find c key ts v

theorem cacheSetBounded_length {α : Type} (c : CacheList α) (key : String)
    (ts : Nat) (v : α) (bound : Nat) (hsz : c.length <= bound) :
    (cacheSetBounded c key ts v bound).length <= bound := by
  unfold cacheSetBounded
  by_cases hdrop : bound < (cacheSetEntry c key ts v).length
  · rw [if_pos hdrop]
    rw [List.length_drop]
    unfold cacheSetEntry at hdrop ⊢
    by_cases hany : c.any (fun e => e.1 = key) = true
    · rw [if_pos hany] at hdrop ⊢
      rw [List.length_map] at hdrop ⊢
      omega
    · rw [if_neg hany] at hdrop ⊢
      rw [List.length_append] at hdrop ⊢
      simp at hdrop ⊢
      omega
  · rw [if_neg hdrop]
    omega

/-! ## Stage chaining: each miss hands over to the next branch -/

theorem chatStage2_to3 (env : ChatEnv) (st : ChatState) (ctx : ReqCtx)
    (h : parseRunCommand ctx.userMessage = none) :
    chatStage2 env st ctx = chatStage3 env st ctx := by
  simp [chatStage2, h]

theorem chatStage3_to4 (env : ChatEnv) (st : ChatState) (ctx : ReqCtx)
    (h : isComparisonIntent ctx.normalized = false) :
    chatStage3 env st ctx = chatStage4 env st ctx := by
  simp [chatStage3, h]

theorem chatStage4_to5 (env : ChatEnv) (st : ChatState) (ctx : ReqCtx)
    (h : bestCampaignBranch ctx.normalized = false) :
    chatStage4 env st ctx = chatStage5 env st ctx := by
  simp [chatStage4, h]

theorem chatStage5_to6 (env : ChatEnv) (st : ChatState) (ctx : ReqCtx)
    (h : bestReelBranch ctx.normalized = false) :
    chatStage5 env st ctx = chatStage6 env st ctx := by
  simp [chatStage5, h]

theorem chatStage6_to7 (env : ChatEnv) (st : ChatState) (ctx : ReqCtx)
    (h : ga4WeeklyBranch ctx.normalized = false) :
    chatStage6 env st ctx = chatStage7 env st ctx := by
  simp [chatStage6, h]

theorem chatStage7_to8 (env : ChatEnv) (st : ChatState) (ctx : ReqCtx)
    (h : isLeadQualityActionsIntent ctx.normalized = false) :
    chatStage7 env st ctx = chatStage8 env st ctx := by
  simp [chatStage7, h]

theorem chatStage8_to9 (env : ChatEnv) (st : ChatState) (ctx : ReqCtx)
    (h : isReduceCplIntent ctx.normalized = false) :
    chatStage8 env st ctx = chatStage9 env st ctx := by
  simp [chatStage8, h]

theorem chatStage9_to10 (env : ChatEnv) (st : ChatState) (ctx : ReqCtx)
    (h : isBudgetWasteIntent ctx.normalized = false) :
    chatStage9 env st ctx = chatStage10 env st ctx := by
  simp [chatStage9, h]

theorem chatStage10_to11 (env : ChatEnv) (st : ChatState) (ctx : ReqCtx)
    (h : env.providerAnswer = none) :
    chatStage10 env st ctx = chatStage11 env st ctx := by
  simp [chatStage10, h]

theorem chatStage11_to12 (env : ChatEnv) (st : ChatState) (ctx : ReqCtx)
    (h : monthWordTest ctx.normalized = false) :
    chatStage11 env st ctx = chatStage12 env st ctx := by
  simp [chatStage11, h]

/-- The guarded cache read misses: the request proceeds to the branch
chain with the caches as they were. -/
theorem handle_miss (env : ChatEnv) (st : ChatState) (m : String)
    (hlen : ¬ m.length = 0)
    (hrun : runPrefixTest (strTrim m) = false)
    (hcmp : isComparisonIntent (normalizeMessage (strTrim m)) = false)
    (hmiss : st.respCache.find?
      (fun e => e.1 = normalizeMessage (strTrim m)) = none) :
    handleChatMessage env st m = chatStage2 env st
      { userMessage := strTrim m,
        normalized := normalizeMessage (strTrim m) } := by
  unfold handleChatMessage
  rw [if_neg hlen]
  simp only [hrun, hcmp, Bool.or_self, Bool.false_eq_true, if_false]
  unfold cacheLookup
  rw [hmiss]

/-! ## The response cache is written by every branch below the run
command -/

theorem chatStage19_resp (env : ChatEnv) (st : ChatState) (ctx : ReqCtx)
    (p : Payload) (st2 : ChatState) (h : chatStage19 env st ctx = .ok p st2) :
    st2.respCache = cacheSetBounded st.respCache ctx.normalized env.now p
      MAX_RESPONSE_CACHE := by
  unfold chatStage19 finishCached at h
  cases h
  rfl

theorem chatStage18_resp (env : ChatEnv) (st : ChatState) (ctx : ReqCtx)
    (p : Payload) (st2 : ChatState) (h : chatStage18 env st ctx = .ok p st2) :
    st2.respCache = cacheSetBounded st.respCache ctx.normalized env.now p
      MAX_RESPONSE_CACHE := by
  simp only [chatStage18] at h
  split at h
  · split at h
    · exact ChatOut.noConfusion h
    · unfold finishCached at h
      cases h
      rfl
  · exact chatStage19_resp env st ctx p st2 h

theorem chatStage17_resp (env : ChatEnv) (st : ChatState) (ctx : ReqCtx)
    (p : Payload) (st2 : ChatState) (h : chatStage17 env st ctx = .ok p st2) :
    st2.respCache = cacheSetBounded st.respCache ctx.normalized env.now p
      MAX_RESPONSE_CACHE := by
  simp only [chatStage17] at h
  split at h
  · unfold finishCached at h
    cases h
    rfl
  · exact chatStage18_resp env st ctx p st2 h

theorem chatStage16_resp (env : ChatEnv) (st : ChatState) (ctx : ReqCtx)
    (p : Payload) (st2 : ChatState) (h : chatStage16 env st ctx = .ok p st2) :
    st2.respCache = cacheSetBounded st.respCache ctx.normalized env.now p
      MAX_RESPONSE_CACHE := by
  simp only [chatStage16] at h
  split at h
  · split at h
    · exact ChatOut.noConfusion h
    · unfold finishCached at h
      cases h
      rfl
  · have h17 := chatStage17_resp env _ ctx p st2 h
    exact h17

theorem chatStage15_resp (env : ChatEnv) (st : ChatState) (ctx : ReqCtx)
    (p : Payload) (st2 : ChatState) (h : chatStage15 env st ctx = .ok p st2) :
    st2.respCache = cacheSetBounded st.respCache ctx.normalized env.now p
      MAX_RESPONSE_CACHE := by
  simp only [chatStage15] at h
  split at h
  · split at h
    · unfold finishCached at h
      cases h
      rfl
    · split at h
      · unfold finishCached at h
        cases h
        rfl
      · split at h
        · unfold finishCached at h
          cases h
          rfl
        · exact chatStage16_resp env st ctx p st2 h
  · exact chatStage16_resp env st ctx p st2 h

theorem chatStage14_resp (env : ChatEnv) (st : ChatState) (ctx : ReqCtx)
    (p : Payload) (st2 : ChatState) (h : chatStage14 env st ctx = .ok p st2) :
    st2.respCache = cacheSetBounded st.respCache ctx.normalized env.now p
      MAX_RESPONSE_CACHE := by
  simp only [chatStage14] at h
  split at h
  · split at h
    · exact ChatOut.noConfusion h
    · unfold finishCached at h
      cases h
      rfl
  · exact chatStage15_resp env st ctx p st2 h

theorem chatStage13_resp (env : ChatEnv) (st : ChatState) (ctx : ReqCtx)
    (p : Payload) (st2 : ChatState) (h : chatStage13 env st ctx = .ok p st2) :
    st2.respCache = cacheSetBounded st.respCache ctx.normalized env.now p
      MAX_RESPONSE_CACHE := by
  simp only [chatStage13] at h
  split at h
  · split at h
    · exact ChatOut.noConfusion h
    · unfold finishCached at h
      cases h
      rfl
  · exact chatStage14_resp env st ctx p st2 h

theorem chatStage12_resp (env : ChatEnv) (st : ChatState) (ctx : ReqCtx)
    (p : Payload) (st2 : ChatState) (h : chatStage12 env st ctx = .ok p st2) :
    st2.respCache = cacheSetBounded st.respCache ctx.normalized env.now p
      MAX_RESPONSE_CACHE := by
  simp only [chatStage12] at h
  split at h
  · split at h
    · exact ChatOut.noConfusion h
    · unfold finishCached at h
      cases h
      rfl
  · exact chatStage13_resp env st ctx p st2 h

theorem chatStage11_resp (env : ChatEnv) (st : ChatState) (ctx : ReqCtx)
    (p : Payload) (st2 : ChatState) (h : chatStage11 env st ctx = .ok p st2) :
    st2.respCache = cacheSetBounded st.respCache ctx.normalized env.now p
      MAX_RESPONSE_CACHE := by
  simp only [chatStage11] at h
  split at h
  · split at h
    · exact ChatOut.noConfusion h
    · unfold finishCached at h
      cases h
      rfl
  · exact chatStage12_resp env st ctx p st2 h

theorem chatStage10_resp (env : ChatEnv) (st : ChatState) (ctx : ReqCtx)
    (p : Payload) (st2 : ChatState) (h : chatStage10 env st ctx = .ok p st2) :
    st2.respCache = cacheSetBounded st.respCache ctx.normalized env.now p
      MAX_RESPONSE_CACHE := by
  simp only [chatStage10] at h
  split at h
  · unfold finishCached at h
    cases h
    rfl
  · exact chatStage11_resp env st ctx p st2 h

theorem chatStage9_resp (env : ChatEnv) (st : ChatState) (ctx : ReqCtx)
    (p : Payload) (st2 : ChatState) (h : chatStage9 env st ctx = .ok p st2) :
    st2.respCache = cacheSetBounded st.respCache ctx.normalized env.now p
      MAX_RESPONSE_CACHE := by
  simp only [chatStage9] at h
  split at h
  · split at h
    · exact ChatOut.noConfusion h
    · unfold finishCached at h
      cases h
      rfl
  · exact chatStage10_resp env st ctx p st2 h

theorem chatStage8_resp (env : ChatEnv) (st : ChatState) (ctx : ReqCtx)
    (p : Payload) (st2 : ChatState) (h : chatStage8 env st ctx = .ok p st2) :
    st2.respCache = cacheSetBounded st.respCache ctx.normalized env.now p
      MAX_RESPONSE_CACHE := by
  simp only [chatStage8] at h
  split at h
  · split at h
    · exact ChatOut.noConfusion h
    · unfold finishCached at h
      cases h
      rfl
  · exact chatStage9_resp env st ctx p st2 h

theorem chatStage7_resp (env : ChatEnv) (st : ChatState) (ctx : ReqCtx)
    (p : Payload) (st2 : ChatState) (h : chatStage7 env st ctx = .ok p st2) :
    st2.respCache = cacheSetBounded st.respCache ctx.normalized env.now p
      MAX_RESPONSE_CACHE := by
  simp only [chatStage7] at h
  split at h
  · split at h
    · exact ChatOut.noConfusion h
    · unfold finishCached at h
      cases h
      rfl
  · exact chatStage8_resp env st ctx p st2 h

theorem chatStage6_resp (env : ChatEnv) (st : ChatState) (ctx : ReqCtx)
    (p : Payload) (st2 : ChatState) (h : chatStage6 env st ctx = .ok p st2) :
    st2.respCache = cacheSetBounded st.respCache ctx.normalized env.now p
      MAX_RESPONSE_CACHE := by
  simp only [chatStage6] at h
  split at h
  · split at h
    · exact ChatOut.noConfusion h
    · unfold finishCached at h
      cases h
      rfl
  · exact chatStage7_resp env st ctx p st2 h

theorem chatStage5_resp (env : ChatEnv) (st : ChatState) (ctx : ReqCtx)
    (p : Payload) (st2 : ChatState) (h : chatStage5 env st ctx = .ok p st2) :
    st2.respCache = cacheSetBounded st.respCache ctx.normalized env.now p
      MAX_RESPONSE_CACHE := by
  simp only [chatStage5] at h
  split at h
  · split at h
    · exact ChatOut.noConfusion h
    · unfold finishCached at h
      cases h
      rfl
  · exact chatStage6_resp env st ctx p st2 h

theorem chatStage4_resp (env : ChatEnv) (st : ChatState) (ctx : ReqCtx)
    (p : Payload) (st2 : ChatState) (h : chatStage4 env st ctx = .ok p st2) :
    st2.respCache = cacheSetBounded st.respCache ctx.normalized env.now p
      MAX_RESPONSE_CACHE := by
  simp only [chatStage4] at h
  split at h
  · split at h
    · exact ChatOut.noConfusion h
    · unfold finishCached at h
      cases h
      rfl
  · exact chatStage5_resp env st ctx p st2 h

theorem chatStage3_resp (env : ChatEnv) (st : ChatState) (ctx : ReqCtx)
    (p : Payload) (st2 : ChatState) (h : chatStage3 env st ctx = .ok p st2) :
    st2.respCache = cacheSetBounded st.respCache ctx.normalized env.now p
      MAX_RESPONSE_CACHE := by
  simp only [chatStage3] at h
  split at h
  · unfold finishCached at h
    cases h
    rfl
  · exact chatStage4_resp env st ctx p st2 h

/-! ## C1 support: the comparator is a total preorder -/

theorem cpcLtInf_iff (x y : Option Rat) :
    cpcLtInf x y = true ↔ cpcK x < cpcK y := by
  cases x <;> cases y <;>
    simp [cpcLtInf, cpcK, WithTop.coe_lt_coe, WithTop.coe_lt_top, not_top_lt]

theorem cpcEqInf_iff (x y : Option Rat) :
    cpcEqInf x y = true ↔ cpcK x = cpcK y := by
  cases x <;> cases y <;> simp [cpcEqInf, cpcK]

theorem campaignLE_key (a b : MetaBestCampaignRow) :
    campaignLE a b = true ↔
      b.leads < a.leads ∨ (a.leads = b.leads ∧
        (cpcK a.cpc < cpcK b.cpc ∨
          (cpcK a.cpc = cpcK b.cpc ∧ b.spend <= a.spend))) := by
  rw [campaignLE_iff]
  constructor
  · rintro (h | ⟨he, (⟨hne, hlt⟩ | ⟨heq, hsp⟩)⟩)
    · exact Or.inl h
    · exact Or.inr ⟨he, Or.inl ((cpcLtInf_iff _ _).mp hlt)⟩
    · exact Or.inr ⟨he, Or.inr ⟨(cpcEqInf_iff _ _).mp heq, hsp⟩⟩
  · rintro (h | ⟨he, (hlt | ⟨heq, hsp⟩)⟩)
    · exact Or.inl h
    · refine Or.inr ⟨he, Or.inl ⟨?_, (cpcLtInf_iff _ _).mpr hlt⟩⟩
      cases hq : cpcEqInf a.cpc b.cpc
      · rfl
      · rw [(cpcEqInf_iff _ _).mp hq] at hlt
        exact absurd hlt (lt_irrefl _)
    · exact Or.inr ⟨he, Or.inr ⟨(cpcEqInf_iff _ _).mpr heq, hsp⟩⟩

theorem campaignLE_total (a b : MetaBestCampaignRow) :
    campaignLE a b = true ∨ campaignLE b a = true := by
  rcases lt_trichotomy a.leads b.leads with h | h | h
  · exact Or.inr ((campaignLE_key b a).mpr (Or.inl h))
  · rcases lt_trichotomy (cpcK a.cpc) (cpcK b.cpc) with h2 | h2 | h2
    · exact Or.inl ((campaignLE_key a b).mpr (Or.inr ⟨h, Or.inl h2⟩))
    · rcases le_total b.spend a.spend with h3 | h3
      · exact Or.inl ((campaignLE_key a b).mpr
          (Or.inr ⟨h, Or.inr ⟨h2, h3⟩⟩))
      · exact Or.inr ((campaignLE_key b a).mpr
          (Or.inr ⟨h.symm, Or.inr ⟨h2.symm, h3⟩⟩))
    · exact Or.inr ((campaignLE_key b a).mpr (Or.inr ⟨h.symm, Or.inl h2⟩))
  · exact Or.inl ((campaignLE_key a b).mpr (Or.inl h))

theorem campaignLE_trans (a b c : MetaBestCampaignRow)
    (h1 : campaignLE a b = true) (h2 : campaignLE b c = true) :
    campaignLE a c = true := by
  rw [campaignLE_key] at h1 h2 ⊢
  rcases h1 with h1 | ⟨e1, h1⟩
  · rcases h2 with h2 | ⟨e2, _⟩
    · exact Or.inl (lt_trans h2 h1)
    · exact Or.inl (e2 ▸ h1)
  · rcases h2 with h2 | ⟨e2, h2⟩
    · refine Or.inl ?_
      rw [e1]
      exact h2
    · refine Or.inr ⟨e1.trans e2, ?_⟩
      rcases h1 with hlt1 | ⟨q1, s1⟩
      · rcases h2 with hlt2 | ⟨q2, _⟩
        · exact Or.inl (lt_trans hlt1 hlt2)
        · exact Or.inl (q2 ▸ hlt1)
      · rcases h2 with hlt2 | ⟨q2, s2⟩
        · refine Or.inl ?_
          rw [q1]
          exact hlt2
        · exact Or.inr ⟨q1.trans q2, le_trans s2 s1⟩

/-- C1: `getMetaBestCampaign` sorts by leads descending, ties by CPC
ascending with `null` CPC last, remaining ties by spend descending
(`campaignLE a b` states "a sorts no later than b"); `best` is the head
and `top` the first ten of that order; on the spec's tie-break example
the `cpc:1` entry is best.  JavaScript's `Array.prototype.sort` is stable
and the comparator is a total preorder, so the stable `insertionSort`
used here is the unique stable sort the source produces. -/
theorem meta_best_campaign_order :
    (∀ rows : List MetaBestCampaignRow,
      (sortCampaignRows rows).Perm rows ∧
      List.Sorted (fun a b => campaignLE a b = true) (sortCampaignRows rows) ∧
      bestCampaign rows = (sortCampaignRows rows).head? ∧
      topCampaigns rows = (sortCampaignRows rows).take 10) ∧
    bestCampaign [rowCpc2, rowCpc1, rowCpcHalf] = some rowCpc1 := by
  constructor
  · intro rows
    refine ⟨List.perm_insertionSort _ _, ?_, rfl, rfl⟩
    haveI ht : IsTotal MetaBestCampaignRow
        (fun a b => campaignLE a b = true) := ⟨campaignLE_total⟩
    haveI htr : IsTrans MetaBestCampaignRow
        (fun a b => campaignLE a b = true) := ⟨campaignLE_trans⟩
    exact List.sorted_insertionSort _ _
  · rfl

/-! ## C10: `runToolByName` guards and `account_id` injection -/

/-- C10 (amended): an unregistered name yields the `Unknown tool` error
object and a truthy non-object argument value yields the
`Invalid tool arguments` error object, in both cases independently of the
registered handlers; for object arguments the tenant account id is
injected exactly when the context carries a non-empty `metaAccountId`,
the arguments' own `account_id` is not truthy and the name is
tenant-scoped (`get_meta_` / `get_instagram_` / `get_ga4_`); a truthy
caller-supplied `account_id` is kept, non-scoped tools and calls without
a context id receive the fields unchanged.  (The frozen claim's stronger
readings — that every non-object argument is rejected and that a
caller-supplied `account_id` is never overwritten — fail on falsy values;
see the counterexample.) -/
theorem runToolByName_guards_and_injection :
    ∀ (handlers : String → List (String × JVal) → JVal) (name : String)
      (args : JVal) (ctx : ToolRunContext) (fs : List (String × JVal))
      (aid : String),
      (toolDefNames.contains name = false →
        runToolByName handlers name args ctx =
          .obj [("ok", .bool false), ("tool", .str name),
            ("error", .str "Unknown tool")]) ∧
      (toolDefNames.contains name = true → args.truthy = true →
        args.isObjType = false →
        runToolByName handlers name args ctx =
          .obj [("ok", .bool false), ("tool", .str name),
            ("error", .str "Invalid tool arguments")]) ∧
      (toolDefNames.contains name = true → accountScopedTool name = true →
        aid ≠ "" → (getFieldJ fs "account_id").truthy = false →
        runToolByName handlers name (.obj fs) { metaAccountId := some aid } =
          handlers name (setFieldJ fs "account_id" (.str aid))) ∧
      (toolDefNames.contains name = true →
        (getFieldJ fs "account_id").truthy = true →
        runToolByName handlers name (.obj fs) { metaAccountId := some aid } =
          handlers name fs) ∧
      (toolDefNames.contains name = true → accountScopedTool name = false →
        runToolByName handlers name (.obj fs) { metaAccountId := some aid } =
          handlers name fs) ∧
      (toolDefNames.contains name = true →
        runToolByName handlers name (.obj fs) { metaAccountId := none } =
          handlers name fs) := by
  intro handlers name args ctx fs aid
  refine ⟨?_, ?_, ?_, ?_, ?_, ?_⟩
  · intro h
    have h2 : ¬ name ∈ toolDefNames := by simpa using h
    simp [runToolByName, h2]
  · intro hc ht ho
    have hc2 : name ∈ toolDefNames := by simpa using hc
    simp [runToolByName, hc2, ht, ho]
  · intro hc hs ha hf
    have hc2 : name ∈ toolDefNames := by simpa using hc
    have hobj : (JVal.obj fs).truthy = true := rfl
    have hot : (JVal.obj fs).isObjType = true := rfl
    simp [runToolByName, spreadArgs, hc2, hs, ha, hf, hobj, hot]
  · intro hc hf
    have hc2 : name ∈ toolDefNames := by simpa using hc
    have hobj : (JVal.obj fs).truthy = true := rfl
    have hot : (JVal.obj fs).isObjType = true := rfl
    simp [runToolByName, spreadArgs, hc2, hf, hobj, hot]
  · intro hc hs
    have hc2 : name ∈ toolDefNames := by simpa using hc
    have hobj : (JVal.obj fs).truthy = true := rfl
    have hot : (JVal.obj fs).isObjType = true := rfl
    simp [runToolByName, spreadArgs, hc2, hs, hobj, hot]
  · intro hc
    have hc2 : name ∈ toolDefNames := by simpa using hc
    have hobj : (JVal.obj fs).truthy = true := rfl
    have hot : (JVal.obj fs).isObjType = true := rfl
    simp [runToolByName, spreadArgs, hc2, hobj, hot]

/-- C10 counterexample to the frozen claim's universal readings: the
falsy non-object argument `0` is not rejected — the registered handler
runs (with empty fields) — and a falsy caller-supplied `account_id` (`0`)
is overwritten by the context's tenant id, as the echo handler shows. -/
theorem runToolByName_falsy_cex :
    JVal.truthy (.num 0) = false ∧
    JVal.isObjType (.num 0) = false ∧
    runToolByName hConst "get_meta_spend_today" (.num 0)
      { metaAccountId := none } = .str "HANDLED" ∧
    runToolByName hEcho "get_meta_spend_today"
      (.obj [("account_id", .num 0)]) { metaAccountId := some "ACT" } =
      .str "ACT" :=
  ⟨rfl, rfl, rfl, rfl⟩

/-! ## C5: advisory action plans -/

/-- C5 (amended): the lead-quality plan and the reduce-CPL plan carry
exactly three numbered actions for every combination of tool results,
interpolating the best campaign name (lead quality) and the best and
worst campaign names (reduce CPL) into the first action; the budget-waste
diagnosis carries exactly three actions whenever campaign rows and
positive spend are available, but degrades to a two-line no-data notice
with zero actions otherwise (the frozen claim's "for every combination of
tool results" fails there; see the counterexample). -/
theorem advisory_three_actions :
    ∀ trs : List (String × JVal),
      countActionLines (buildLeadQualityActionsLines trs) = 3 ∧
      (buildLeadQualityActionsLines trs).get? 1 =
        some ("1. Shift 15-25% budget toward " ++ lqBestName trs ++
          lqCplNote trs ++ " and reduce weak ad sets.") ∧
      (buildReduceCplLines trs).drop 4 =
        [ "Best actions to reduce CPL from today\x27s data:",
          "1. Reallocate 20-30% budget from " ++ rcWorstName trs ++
            " to " ++ rcBestName trs ++ ".",
          "2. Pause ad sets with high spend and zero/low leads for 24h, " ++
            "then restart only winners.",
          "3. Launch 2 fresh creatives and 1 tighter audience segment to " ++
            "reduce fatigue-driven CPL." ] ∧
      countActionLines ((buildReduceCplLines trs).drop 4) = 3 ∧
      (budgetWasteNoData trs = false →
        countActionLines (buildBudgetWasteLines trs) = 3) ∧
      (budgetWasteNoData trs = true →
        countActionLines (buildBudgetWasteLines trs) = 0) := by
  intro trs
  refine ⟨rfl, rfl, rfl, rfl, ?_, ?_⟩
  · intro h
    unfold buildBudgetWasteLines
    rw [h]
    rfl
  · intro h
    unfold buildBudgetWasteLines
    rw [h]
    rfl

/-- C5 counterexample: with no campaign rows the budget-waste intent
produces the two-line no-data notice — zero recommended actions, not
three — end to end through the chat pipeline. -/
theorem budget_waste_no_data_cex :
    chatMode (handleChatMessage wEnvNoData wState
      "where is budget wasted today") = some "budget-waste-action-plan" ∧
    chatAnswer (handleChatMessage wEnvNoData wState
      "where is budget wasted today") =
      some (joinLines (buildBudgetWasteLines
        [("get_meta_spend_today", .obj []),
         ("get_meta_best_campaign", .obj [])])) ∧
    countActionLines (buildBudgetWasteLines
      [("get_meta_spend_today", .obj []),
       ("get_meta_best_campaign", .obj [])]) = 0 :=
  ⟨rfl, rfl, rfl⟩

/-! ## C4: per-tool failure isolation in the comparison branch -/

/-- C4: inside one comparison request each tool runs under its own
`try/catch`: a tool whose execution throws contributes the structured
`{ok:false, error}` placeholder while every other tool's result is
accumulated unchanged, the branch always answers with `ok := true`, and
its `tools` array is exactly the caught run of the resolved bundle.  The
last conjunct shows a concrete mixed request: spend-today throwing while
spend-month succeeds yields both entries. -/
theorem comparison_per_tool_isolation :
    ∀ (env : ChatEnv) (st : ChatState) (ctx : ReqCtx) (names : List String)
      (t e : String) (r : JVal),
      (t ∈ names → env.runTool t emptyArgs = .thrown e →
        (t, thrownPlaceholder e) ∈ runToolsCaught env names) ∧
      (t ∈ names → env.runTool t emptyArgs = .ok r →
        (t, r) ∈ runToolsCaught env names) ∧
      (isComparisonIntent ctx.normalized = true →
        ∃ st2, chatStage3 env st ctx =
          .ok { ok := true,
                answer := buildComparisonTableAnswer env.monthProgress
                  env.nowIso ctx.userMessage
                  (runToolsCaught env
                    (comparisonToolsForMessage ctx.normalized)),
                tools := runToolsCaught env
                  (comparisonToolsForMessage ctx.normalized),
                mode := "comparison-table" } st2) ∧
      runToolsCaught wEnvHalfDown
        ["get_meta_spend_today", "get_meta_spend_month"] =
        [("get_meta_spend_today", thrownPlaceholder "network down"),
         ("get_meta_spend_month", .obj [("spend", .num 9000)])] := by
  intro env st ctx names t e r
  refine ⟨?_, ?_, ?_, rfl⟩
  · intro hmem hthrown
    have hm := List.mem_map_of_mem
      (fun t => (t, match env.runTool t emptyArgs with
        | .ok r => r
        | .thrown e => thrownPlaceholder e)) hmem
    simp only at hm
    rw [hthrown] at hm
    exact hm
  · intro hmem hok
    have hm := List.mem_map_of_mem
      (fun t => (t, match env.runTool t emptyArgs with
        | .ok r => r
        | .thrown e => thrownPlaceholder e)) hmem
    simp only at hm
    rw [hok] at hm
    exact hm
  · intro hcmp
    have heq : chatStage3 env st ctx = finishCached env st ctx.normalized
        (buildComparisonTableAnswer env.monthProgress env.nowIso
          ctx.userMessage (runToolsCaught env
            (comparisonToolsForMessage ctx.normalized)))
        (runToolsCaught env (comparisonToolsForMessage ctx.normalized))
        "comparison-table" := by
      simp only [chatStage3, hcmp, if_true]
    rw [heq]
    unfold finishCached
    exact ⟨_, rfl⟩

/-! ## C2 support -/

theorem buildComparison_header (mp : Nat × Nat) (iso msg : String)
    (trs : List (String × JVal)) :
    substr (buildComparisonTableAnswer mp iso msg trs)
      comparisonHeaderRow = true := by
  simp only [buildComparisonTableAnswer, List.cons_append, List.nil_append,
    joinLines_cons_cons]
  apply substr_appL
  apply substr_appL
  apply substr_appR
  apply substr_appR
  apply substr_appR
  exact substr_self_app _ _

theorem comparisonTools_le6 (m : String) :
    (comparisonToolsForMessage m).length <= 6 := by
  simp only [comparisonToolsForMessage, List.length_take]
  exact min_le_left _ _

theorem runToolsCaught_length (env : ChatEnv) (names : List String) :
    (runToolsCaught env names).length = names.length := by
  simp [runToolsCaught]

/-! ## C2: comparison intent commits to the table -/

/-- C2 (amended): for every non-empty message that does not parse as an
explicit `run <tool>` command and whose normalization carries a
comparison keyword as a whole word, the route answers with the
deterministic comparison table — mode `comparison-table`, at most six
tools, the markdown header row inside the answer — for every environment
(so regardless of configured LLM providers); and the spec's example
message resolves exactly the spend-today and spend-month pair.  (The
unamended claim fails on messages such as `"run vs"`, where the explicit
run command wins; see the counterexample.) -/
theorem comparison_intent_commits_to_table (env : ChatEnv) (st : ChatState)
    (m : String) (hlen : ¬ m.length = 0)
    (hrun : parseRunCommand (strTrim m) = none)
    (hcmp : isComparisonIntent (normalizeMessage (strTrim m)) = true) :
    (∃ st2, handleChatMessage env st m =
      .ok { ok := true,
            answer := buildComparisonTableAnswer env.monthProgress
              env.nowIso (strTrim m)
              (runToolsCaught env (comparisonToolsForMessage
                (normalizeMessage (strTrim m)))),
            tools := runToolsCaught env (comparisonToolsForMessage
              (normalizeMessage (strTrim m))),
            mode := "comparison-table" } st2) ∧
    (runToolsCaught env (comparisonToolsForMessage
      (normalizeMessage (strTrim m)))).length <= 6 ∧
    substr (buildComparisonTableAnswer env.monthProgress env.nowIso
      (strTrim m) (runToolsCaught env (comparisonToolsForMessage
        (normalizeMessage (strTrim m))))) comparisonHeaderRow = true ∧
    comparisonToolsForMessage (normalizeMessage
      (strTrim "compare spend today vs this month")) =
      ["get_meta_spend_today", "get_meta_spend_month"] := by
  refine ⟨?_, ?_, buildComparison_header _ _ _ _, rfl⟩
  · have hhandle : handleChatMessage env st m = chatStage2 env st
        { userMessage := strTrim m,
          normalized := normalizeMessage (strTrim m) } := by
      unfold handleChatMessage
      rw [if_neg hlen]
      simp [hcmp]
    rw [hhandle, chatStage2_to3 env st _ hrun]
    have heq : chatStage3 env st
        { userMessage := strTrim m,
          normalized := normalizeMessage (strTrim m) } =
        finishCached env st (normalizeMessage (strTrim m))
          (buildComparisonTableAnswer env.monthProgress env.nowIso
            (strTrim m) (runToolsCaught env (comparisonToolsForMessage
              (normalizeMessage (strTrim m)))))
          (runToolsCaught env (comparisonToolsForMessage
            (normalizeMessage (strTrim m)))) "comparison-table" := by
      simp only [chatStage3, hcmp, if_true]
    rw [heq]
    unfold finishCached
    exact ⟨_, rfl⟩
  · rw [runToolsCaught_length]
    exact comparisonTools_le6 _

/-- C2 witness: the comparison theorem at the spec's example, in an
environment where every provider is configured and answering. -/
theorem comparison_intent_commits_to_table_witness :
    (∃ st2, handleChatMessage wEnvLLM wState
        "compare spend today vs this month" =
      .ok { ok := true,
            answer := buildComparisonTableAnswer wEnvLLM.monthProgress
              wEnvLLM.nowIso (strTrim "compare spend today vs this month")
              (runToolsCaught wEnvLLM (comparisonToolsForMessage
                (normalizeMessage
                  (strTrim "compare spend today vs this month")))),
            tools := runToolsCaught wEnvLLM (comparisonToolsForMessage
              (normalizeMessage
                (strTrim "compare spend today vs this month"))),
            mode := "comparison-table" } st2) ∧
    (runToolsCaught wEnvLLM (comparisonToolsForMessage
      (normalizeMessage
        (strTrim "compare spend today vs this month")))).length <= 6 ∧
    substr (buildComparisonTableAnswer wEnvLLM.monthProgress wEnvLLM.nowIso
      (strTrim "compare spend today vs this month")
      (runToolsCaught wEnvLLM (comparisonToolsForMessage
        (normalizeMessage (strTrim "compare spend today vs this month")))))
      comparisonHeaderRow = true ∧
    comparisonToolsForMessage (normalizeMessage
      (strTrim "compare spend today vs this month")) =
      ["get_meta_spend_today", "get_meta_spend_month"] :=
  comparison_intent_commits_to_table wEnvLLM wState
    "compare spend today vs this month" (by decide) rfl rfl

/-- C2 counterexample to the unamended claim: `"run vs"` contains the
whole-word comparison keyword `vs`, yet the explicit run command is
checked first and the response mode is `direct-tool`, not
`comparison-table`. -/
theorem comparison_keyword_run_vs_cex :
    isComparisonIntent (normalizeMessage (strTrim "run vs")) = true ∧
    chatMode (handleChatMessage wEnv wState "run vs") =
      some "direct-tool" ∧
    ("direct-tool" : String) ≠ "comparison-table" :=
  ⟨rfl, rfl, by decide⟩

/-! ## C3: the explicit run command bypasses everything -/

/-- C3: a message parsing as `run <tool>` invokes the named tool directly
with empty arguments and answers with mode `direct-tool`, leaving both
caches untouched (the returned state is the input state, so no response
cache entry is read or written) — for every environment and cache state,
in particular with every LLM provider configured. -/
theorem run_command_direct_tool (env : ChatEnv) (st : ChatState)
    (m t : String) (r : JVal) (hlen : ¬ m.length = 0)
    (hrun : parseRunCommand (strTrim m) = some t)
    (hok : env.runTool t emptyArgs = .ok r) :
    handleChatMessage env st m =
      .ok { ok := true, answer := formatToolAnswer t r,
            tools := [(t, r)], mode := "direct-tool" } st := by
  have hpre : runPrefixTest (strTrim m) = true :=
    parseRun_some_runPrefix _ _ hrun
  unfold handleChatMessage
  rw [if_neg hlen]
  simp only [hpre, Bool.true_or, if_true]
  simp only [chatStage2, hrun, hok]

/-- C3 witness: `"run get_meta_spend_today"` in the all-providers
environment still answers via the direct tool call, cache state
unchanged. -/
theorem run_command_direct_tool_witness :
    handleChatMessage wEnvLLM wState "run get_meta_spend_today" =
      .ok { ok := true,
            answer := formatToolAnswer "get_meta_spend_today" wSpendToday,
            tools := [("get_meta_spend_today", wSpendToday)],
            mode := "direct-tool" } wState :=
  run_command_direct_tool wEnvLLM wState "run get_meta_spend_today"
    "get_meta_spend_today" wSpendToday (by decide) rfl rfl

/-! ## C7: the run-rate projections -/

/-- C7 (amended): when a spend keyword and a day count reach the
numeric-estimation branch, the route fetches today's spend exactly once
(one tool entry) and answers with today's spend multiplied by the day
count, rounded to two decimals and carrying the run-rate disclaimer; the
hour branch likewise multiplies by hours/24 (stated on its stage, in the
plain case without the CPL note).  Contrary to the spec's stage order,
this estimation runs before the deterministic keyword-to-tool mapping,
not after it — the hypotheses here do not require the mapping to fail,
and the counterexample shows a message where the mapping would match yet
the estimate answers. -/
theorem days_hours_estimate_runrate (env : ChatEnv) (st : ChatState)
    (m : String) (days : Nat) (hrs : Rat) (r r2 : JVal)
    (hlen : ¬ m.length = 0)
    (hrun : runPrefixTest (strTrim m) = false)
    (hmiss : st.respCache.find?
      (fun e => e.1 = normalizeMessage (strTrim m)) = none)
    (hcmp : isComparisonIntent (normalizeMessage (strTrim m)) = false)
    (hbc : bestCampaignBranch (normalizeMessage (strTrim m)) = false)
    (hbr : bestReelBranch (normalizeMessage (strTrim m)) = false)
    (hga : ga4WeeklyBranch (normalizeMessage (strTrim m)) = false)
    (hlq : isLeadQualityActionsIntent (normalizeMessage (strTrim m)) = false)
    (hrc : isReduceCplIntent (normalizeMessage (strTrim m)) = false)
    (hbw : isBudgetWasteIntent (normalizeMessage (strTrim m)) = false)
    (hprov : env.providerAnswer = none)
    (hmonth : monthWordTest (normalizeMessage (strTrim m)) = false)
    (hdays : parseRequestedDays (normalizeMessage (strTrim m)) = some days)
    (hspend : hasSpendIntent (normalizeMessage (strTrim m)) = true)
    (hok : env.runTool "get_meta_spend_today" emptyArgs = .ok r) :
    chatAnswer (handleChatMessage env st m) =
      some ("Estimated Meta ad spend for " ++ toString days ++ " days is " ++
        formatCurrency (toFixed2 ((chainNumZero r "spend").map
          (fun s => s * (days : Rat))))
        (jStrOr (chainField r "currency") "INR") ++
        " (based on today\x27s spend run-rate).") ∧
    chatTools (handleChatMessage env st m) = [("get_meta_spend_today", r)] ∧
    chatMode (handleChatMessage env st m) =
      some "tool-mapping-days-estimate" ∧
    (∀ ctx : ReqCtx, parseRequestedHours ctx.normalized = some hrs →
      hasSpendIntent ctx.normalized = true →
      env.runTool "get_meta_spend_today" emptyArgs = .ok r2 →
      (reTest [.wb, kw "cpl", .wb] ctx.normalized ||
        maybeCplNumber ctx.normalized) = false →
      chatAnswer (chatStage13 env st ctx) =
        some ("Estimated Meta spend for " ++ ratDisp hrs ++
          " hour(s) is " ++
          formatCurrency (toFixed2 ((chainNumZero r2 "spend").map
            (fun s => s / 24 * hrs)))
          (jStrOr (chainField r2 "currency") "INR") ++
          " based on today\x27s run-rate." ++ "")) := by
  have hmain : handleChatMessage env st m = chatStage12 env st
      { userMessage := strTrim m,
        normalized := normalizeMessage (strTrim m) } := by
    rw [handle_miss env st m hlen hrun hcmp hmiss,
      chatStage2_to3 env st
        { userMessage := strTrim m,
          normalized := normalizeMessage (strTrim m) }
        (runPrefix_false_parseRun_none _ hrun),
      chatStage3_to4 env st
        { userMessage := strTrim m,
          normalized := normalizeMessage (strTrim m) } hcmp,
      chatStage4_to5 env st
        { userMessage := strTrim m,
          normalized := normalizeMessage (strTrim m) } hbc,
      chatStage5_to6 env st
        { userMessage := strTrim m,
          normalized := normalizeMessage (strTrim m) } hbr,
      chatStage6_to7 env st
        { userMessage := strTrim m,
          normalized := normalizeMessage (strTrim m) } hga,
      chatStage7_to8 env st
        { userMessage := strTrim m,
          normalized := normalizeMessage (strTrim m) } hlq,
      chatStage8_to9 env st
        { userMessage := strTrim m,
          normalized := normalizeMessage (strTrim m) } hrc,
      chatStage9_to10 env st
        { userMessage := strTrim m,
          normalized := normalizeMessage (strTrim m) } hbw,
      chatStage10_to11 env st
        { userMessage := strTrim m,
          normalized := normalizeMessage (strTrim m) } hprov,
      chatStage11_to12 env st
        { userMessage := strTrim m,
          normalized := normalizeMessage (strTrim m) } hmonth]
  refine ⟨?_, ?_, ?_, ?_⟩
  · rw [hmain]
    simp [chatStage12, hdays, hspend, hok, finishCached, chatAnswer]
  · rw [hmain]
    simp [chatStage12, hdays, hspend, hok, finishCached, chatTools]
  · rw [hmain]
    simp [chatStage12, hdays, hspend, hok, finishCached, chatMode]
  · intro ctx h1 h2 h3 hnote
    simp [chatStage13, h1, h2, h3, hnote, finishCached, chatAnswer]

/-- C7 witness: `"spend today for 5 days"` projects five times today's
spend with the run-rate disclaimer. -/
theorem days_hours_estimate_runrate_witness :
    chatAnswer (handleChatMessage wEnv wState "spend today for 5 days") =
      some ("Estimated Meta ad spend for " ++ toString 5 ++ " days is " ++
        formatCurrency (toFixed2 ((chainNumZero wSpendToday "spend").map
          (fun s => s * ((5 : Nat) : Rat))))
        (jStrOr (chainField wSpendToday "currency") "INR") ++
        " (based on today\x27s spend run-rate).") ∧
    chatTools (handleChatMessage wEnv wState "spend today for 5 days") =
      [("get_meta_spend_today", wSpendToday)] ∧
    chatMode (handleChatMessage wEnv wState "spend today for 5 days") =
      some "tool-mapping-days-estimate" ∧
    (∀ ctx : ReqCtx, parseRequestedHours ctx.normalized = some 1 →
      hasSpendIntent ctx.normalized = true →
      wEnv.runTool "get_meta_spend_today" emptyArgs = .ok wSpendToday →
      (reTest [.wb, kw "cpl", .wb] ctx.normalized ||
        maybeCplNumber ctx.normalized) = false →
      chatAnswer (chatStage13 wEnv wState ctx) =
        some ("Estimated Meta spend for " ++ ratDisp 1 ++
          " hour(s) is " ++
          formatCurrency (toFixed2 ((chainNumZero wSpendToday "spend").map
            (fun s => s / 24 * 1)))
          (jStrOr (chainField wSpendToday "currency") "INR") ++
          " based on today\x27s run-rate." ++ "")) :=
  days_hours_estimate_runrate wEnv wState "spend today for 5 days" 5 1
    wSpendToday wSpendToday (by decide) rfl rfl rfl rfl rfl rfl rfl rfl rfl
    rfl rfl rfl rfl rfl

/-- C7 counterexample to the spec's stage ordering: on
`"spend today for 5 days"` the deterministic keyword mapping matches
(spend + today), yet the response mode is the day estimate — the
estimation stage runs before the mapping stage, not after it. -/
theorem days_estimate_before_mapping_cex :
    mapMessageToTool (normalizeMessage (strTrim "spend today for 5 days")) =
      some "get_meta_spend_today" ∧
    chatMode (handleChatMessage wEnv wState "spend today for 5 days") =
      some "tool-mapping-days-estimate" ∧
    ("tool-mapping-days-estimate" : String) ≠ "tool-mapping" :=
  ⟨rfl, rfl, by decide⟩

/-! ## C8: the response cache TTL law -/

/-- C8: after a first non-run, non-comparison request is processed (a
cache miss) and answered, an identical request within the 25-second TTL
is served from the response cache — identical payload, the mode carrying
the `-cache-hit` suffix, no cache write; an identical request at or past
the TTL finds the entry expired, deletes it on lookup and is reprocessed
from scratch through the branch chain; the response cache stays within
its 1000-entry bound (eviction is oldest-first), and the cache constants
are 25000 ms TTL, 1000 response entries and 5000 retrieval entries. -/
theorem response_cache_ttl_law (env : ChatEnv) (st : ChatState)
    (m : String) (p : Payload) (st2 : ChatState) (now2 : Nat)
    (hlen : ¬ m.length = 0)
    (hrun : runPrefixTest (strTrim m) = false)
    (hcmp : isComparisonIntent (normalizeMessage (strTrim m)) = false)
    (hmiss : st.respCache.find?
      (fun e => e.1 = normalizeMessage (strTrim m)) = none)
    (hsz : st.respCache.length <= MAX_RESPONSE_CACHE)
    (hfirst : handleChatMessage env st m = .ok p st2)
    (hmode : ¬ p.mode = "") :
    (now2 - env.now < RESPONSE_CACHE_TTL_MS →
      handleChatMessage { env with now := now2 } st2 m =
        .ok { p with mode := p.mode ++ "-cache-hit" } st2) ∧
    (RESPONSE_CACHE_TTL_MS <= now2 - env.now →
      handleChatMessage { env with now := now2 } st2 m =
        chatStage2 { env with now := now2 }
          { st2 with respCache :=
              cacheDelete st2.respCache (normalizeMessage (strTrim m)) }
          { userMessage := strTrim m,
            normalized := normalizeMessage (strTrim m) }) ∧
    st2.respCache.length <= MAX_RESPONSE_CACHE ∧
    RESPONSE_CACHE_TTL_MS = 25000 ∧ MAX_RESPONSE_CACHE = 1000 ∧
    MAX_PROMPT_RETRIEVAL_CACHE = 5000 := by
  have hresp : st2.respCache = cacheSetBounded st.respCache
      (normalizeMessage (strTrim m)) env.now p MAX_RESPONSE_CACHE := by
    have h2 : chatStage3 env st
        { userMessage := strTrim m,
          normalized := normalizeMessage (strTrim m) } = .ok p st2 := by
      rw [← chatStage2_to3 env st
          { userMessage := strTrim m,
            normalized := normalizeMessage (strTrim m) }
          (runPrefix_false_parseRun_none _ hrun),
        ← handle_miss env st m hlen hrun hcmp hmiss]
      exact hfirst
    exact chatStage3_resp env st
      { userMessage := strTrim m,
        normalized := normalizeMessage (strTrim m) } p st2 h2
  have hfind : st2.respCache.find?
      (fun e => e.1 = normalizeMessage (strTrim m)) =
      some (normalizeMessage (strTrim m), env.now, p) := by
    rw [hresp]
    exact cacheSetBounded_find _ _ _ _ _ hsz (by decide)
  refine ⟨?_, ?_, ?_, rfl, rfl, rfl⟩
  · intro hfresh
    unfold handleChatMessage
    rw [if_neg hlen]
    simp only [hrun, hcmp, Bool.or_self, Bool.false_eq_true, if_false]
    unfold cacheLookup
    rw [hfind]
    dsimp only
    rw [if_neg (not_le.mpr hfresh)]
    dsimp only
    rw [if_neg hmode]
  · intro hstale
    unfold handleChatMessage
    rw [if_neg hlen]
    simp only [hrun, hcmp, Bool.or_self, Bool.false_eq_true, if_false]
    unfold cacheLookup
    rw [hfind]
    dsimp only
    rw [if_pos hstale]
  · rw [hresp]
    exact cacheSetBounded_length _ _ _ _ _ hsz

/-- C8 witness: `"spend today"` is processed once, and an identical
request ten milliseconds later returns the cached payload with the
`-cache-hit` mode suffix. -/
theorem response_cache_ttl_law_witness :
    handleChatMessage wEnv wState "spend today" = .ok wPayload wState2 ∧
    handleChatMessage { wEnv with now := 10 } wState2 "spend today" =
      .ok { wPayload with mode := wPayload.mode ++ "-cache-hit" } wState2 :=
  ⟨rfl,
    (response_cache_ttl_law wEnv wState "spend today" wPayload wState2 10
      (by decide) rfl rfl rfl (by decide) rfl (by decide)).1 (by decide)⟩

/-! ## C6 support: the retrieval matcher -/

theorem insertDistinct_nodup (l : List String) (a : String)
    (h : l.Nodup) : (insertDistinct l a).Nodup := by
  unfold insertDistinct
  split
  next => exact h
  next hmem =>
    rw [List.nodup_append]
    refine ⟨h, List.nodup_singleton a, ?_⟩
    intro x hx hxa
    rw [List.mem_singleton] at hxa
    subst hxa
    exact hmem hx

theorem foldl_insertDistinct_nodup (xs : List String) (acc : List String)
    (h : acc.Nodup) : (xs.foldl insertDistinct acc).Nodup := by
  induction xs generalizing acc with
  | nil => exact h
  | cons x tl ih => exact ih _ (insertDistinct_nodup _ _ h)

theorem insertDistinct_ne_nil (l : List String) (a : String)
    (h : l ≠ []) : insertDistinct l a ≠ [] := by
  unfold insertDistinct
  split
  next => exact h
  next => simp

theorem insertDistinct_head (l : List String) (a : String) (h : l ≠ []) :
    (insertDistinct l a).head? = l.head? := by
  unfold insertDistinct
  split
  next => rfl
  next => exact List.head?_append_of_ne_nil l h

theorem promptLoopGo_nodup (g : String → Option String)
    (ps : List String) (acc : List String)
    (h : acc.Nodup) : (promptLoopGo g ps acc).Nodup := by
  induction ps generalizing acc with
  | nil => exact h
  | cons p tl ih =>
    simp only [promptLoopGo]
    cases hi : g p with
    | some tool =>
      dsimp only
      split
      next => exact insertDistinct_nodup _ _ h
      next => exact ih _ (insertDistinct_nodup _ _ h)
    | none =>
      dsimp only
      split
      next => exact h
      next => exact ih _ h

theorem promptLoop_nodup (ps : List String) (acc : List String)
    (h : acc.Nodup) : (promptLoop acc ps).Nodup :=
  promptLoopGo_nodup inferToolFromText ps acc h

theorem promptLoopGo_head (g : String → Option String)
    (ps : List String) (acc : List String) (h : acc ≠ []) :
    promptLoopGo g ps acc ≠ [] ∧
      (promptLoopGo g ps acc).head? = acc.head? := by
  induction ps generalizing acc with
  | nil => exact ⟨h, rfl⟩
  | cons p tl ih =>
    simp only [promptLoopGo]
    cases hi : g p with
    | some tool =>
      dsimp only
      split
      next => exact ⟨insertDistinct_ne_nil _ _ h, insertDistinct_head _ _ h⟩
      next =>
        obtain ⟨h1, h2⟩ := ih _ (insertDistinct_ne_nil _ _ h)
        exact ⟨h1, h2.trans (insertDistinct_head _ _ h)⟩
    | none =>
      dsimp only
      split
      next => exact ⟨h, rfl⟩
      next => exact ih _ h

theorem promptLoop_head (ps : List String) (acc : List String)
    (h : acc ≠ []) :
    promptLoop acc ps ≠ [] ∧ (promptLoop acc ps).head? = acc.head? :=
  promptLoopGo_head inferToolFromText ps acc h

theorem rankCandidates_perm (corpus : List PromptDoc)
    (qT : List String) :
    (rankCandidates corpus qT).Perm (candidateIds corpus qT) := by
  unfold rankCandidates
  exact List.perm_insertionSort _ _

theorem rankCandidates_sorted (corpus : List PromptDoc)
    (qT : List String) :
    (rankCandidates corpus qT).Pairwise
      (fun a b => candScore corpus qT b <= candScore corpus qT a) := by
  unfold rankCandidates
  haveI : IsTotal Nat
      (fun a b => candScore corpus qT b <= candScore corpus qT a) :=
    ⟨fun a b => le_total _ _⟩
  haveI : IsTrans Nat
      (fun a b => candScore corpus qT b <= candScore corpus qT a) :=
    ⟨fun _ _ _ h1 h2 => le_trans h2 h1⟩
  exact List.sorted_insertionSort _ _

theorem rankedEntries_le12 (corpus : List PromptDoc) (m : String) :
    (rankedEntries corpus m).length <= 12 := by
  simp only [rankedEntries]
  split
  · simp
  · simp only [List.length_take]
    exact min_le_left _ _

theorem rankedEntries_mem (corpus : List PromptDoc)
    (m : String) (e : String × Rat)
    (he : e ∈ rankedEntries corpus m) :
    (3 : Rat) / 20 <= e.2 ∧
    ∃ i ∈ (rankCandidates corpus
        (dedupFirst (tokenize (normalizeMessage m)))).take 320,
      ∃ d, corpus.get? i = some d ∧ e.1 = d.text ∧
        e.2 = overlapScore (dedupFirst (tokenize (normalizeMessage m)))
          d.tokens := by
  simp only [rankedEntries] at he
  generalize hqT : dedupFirst (tokenize (normalizeMessage m)) = qT at he ⊢
  split at he
  · simp at he
  · have he2 := List.mem_of_mem_take he
    rw [List.mem_insertionSort, List.mem_filter] at he2
    obtain ⟨hmem, hsc⟩ := he2
    rw [List.mem_filterMap] at hmem
    obtain ⟨i, hi, hfi⟩ := hmem
    rw [Option.map_eq_some'] at hfi
    obtain ⟨d, hd, hde⟩ := hfi
    subst hde
    refine ⟨by simpa using hsc, i, hi, d, hd, rfl, rfl⟩

theorem rankedEntries_sorted (corpus : List PromptDoc) (m : String) :
    (rankedEntries corpus m).Pairwise
      (fun a b : String × Rat => b.2 <= a.2) := by
  simp only [rankedEntries]
  split
  · simp
  · haveI : IsTotal (String × Rat) (fun a b => b.2 <= a.2) :=
      ⟨fun a b => le_total b.2 a.2⟩
    haveI : IsTrans (String × Rat) (fun a b => b.2 <= a.2) :=
      ⟨fun _ _ _ h1 h2 => le_trans h2 h1⟩
    exact List.Pairwise.sublist (List.take_sublist _ _)
      (List.sorted_insertionSort _ _)

theorem retrievedTools_le3 (corpus : List PromptDoc) (m : String) :
    (retrievedTools corpus m).length <= 3 := by
  simp only [retrievedTools, List.length_take]
  exact min_le_left _ _

theorem retrievedTools_nodup (corpus : List PromptDoc) (m : String) :
    (retrievedTools corpus m).Nodup := by
  simp only [retrievedTools]
  apply List.Nodup.sublist (List.take_sublist _ _)
  generalize normalizeMessage m = nm
  generalize (rankedEntries corpus m).map Prod.fst = P
  cases hq : inferToolFromText nm <;> dsimp only <;>
    repeat' first
      | apply foldl_insertDistinct_nodup
      | apply promptLoop_nodup
      | apply insertDistinct_nodup
      | split
      | simp

theorem retrievedTools_query_first (corpus : List PromptDoc)
    (m : String) (t : String)
    (hq : inferToolFromText (normalizeMessage m) = some t) :
    (retrievedTools corpus m).head? = some t := by
  simp only [retrievedTools, hq, Option.isNone_some, Bool.false_and,
    Bool.false_eq_true, if_false]
  generalize (rankedEntries corpus m).map Prod.fst = P
  generalize isMarketingIntent (normalizeMessage m) = mk
  generalize defaultToolBundleForMessage (normalizeMessage m) = db
  obtain ⟨hne, hhead⟩ := promptLoop_head P [t] (by simp)
  cases hl : promptLoop [t] P with
  | nil => exact absurd hl hne
  | cons a l =>
    rw [hl] at hhead
    have ha : a = t := by simpa using hhead
    simp [ha]

/-- C6: the retrieval-augmented matcher scores each candidate as the sum
over shared query tokens of `1/sqrt(df)` (`candScore`, in exact real
arithmetic — the value the source\x27s float accumulation computes), and
the pre-filter keeps the top 320 candidates by that accumulated score:
`rankCandidates` is a permutation of the candidate set sorted by
`candScore` descending, and every surviving entry is drawn from its
first 320 elements.  Each kept entry carries the refined overlap score
`|query ∩ entry| / max(3, min(|entry|, |query|))` of a corpus entry and
survives the 0.15 threshold; the surviving entries are sorted by score
descending and capped at 12; at most 3 distinct tool names are returned
(first conjunct: the result record is exactly the ranked prompt texts
plus the harvested tools); and when the raw query itself maps to a tool,
that tool comes first, before any matched-prompt-derived tool. -/
theorem retrieval_bounds_and_scores :
    ∀ (corpus : List PromptDoc) (m : String) (qT : List String)
      (e : String × Rat) (t : String),
      retrievePure corpus m =
        { matchedPrompts := (rankedEntries corpus m).map Prod.fst,
          tools := retrievedTools corpus m } ∧
      (rankCandidates corpus qT).Perm (candidateIds corpus qT) ∧
      (rankCandidates corpus qT).Pairwise
        (fun a b => candScore corpus qT b <= candScore corpus qT a) ∧
      ((rankedEntries corpus m).map Prod.fst).length <= 12 ∧
      (retrievedTools corpus m).length <= 3 ∧
      (retrievedTools corpus m).Nodup ∧
      (e ∈ rankedEntries corpus m →
        (3 : Rat) / 20 <= e.2 ∧
        ∃ i ∈ (rankCandidates corpus
            (dedupFirst (tokenize (normalizeMessage m)))).take 320,
          ∃ d, corpus.get? i = some d ∧ e.1 = d.text ∧
            e.2 = overlapScore (dedupFirst (tokenize (normalizeMessage m)))
              d.tokens) ∧
      (rankedEntries corpus m).Pairwise
        (fun a b : String × Rat => b.2 <= a.2) ∧
      (inferToolFromText (normalizeMessage m) = some t →
        (retrievedTools corpus m).head? = some t) := by
  intro corpus m qT e t
  refine ⟨rfl, rankCandidates_perm corpus qT, rankCandidates_sorted corpus qT,
    ?_, retrievedTools_le3 corpus m, retrievedTools_nodup corpus m,
    fun he => rankedEntries_mem corpus m e he,
    rankedEntries_sorted corpus m,
    fun hq => retrievedTools_query_first corpus m t hq⟩
  rw [List.length_map]
  exact rankedEntries_le12 corpus m
